import Mathlib

/-!
Verification development for the yahoo-finance MCP server repository.

The repository contains two near-duplicate API-client source files:
the named `src/yahoo-finance-api.ts` (credential routine `getCrumb`,
fetch wrapper `fetchYahoo`, nine data-shaping tool functions) and an
unnamed duplicate (credential routine `getCookieAndCrumb` plus its own
`fetchYahoo` and nine tools).  Both are embedded below.  Pure string /
number / JSON transformations are translated directly; the network is
modelled as an oracle structure holding the responses the code would
observe, and the process-wide mutable credential cache is modelled by
explicit state passing.  JavaScript exceptions are modelled with
`Except` (the error value is the string that the template `Error: ...`
rendering of the thrown object would produce).

Modelling notes, applying throughout:
- JavaScript numbers are modelled as exact rationals (`Rat`).  Every
  numeric value appearing in the claims is exactly representable as a
  binary float, so float rounding never separates the model from the
  code on claim-relevant inputs.
- Strings are sequences of `Char`; `slice`/`length` act on characters
  where JavaScript acts on UTF-16 code units (identical on the
  claim-relevant inputs, which are ASCII).
- Property access on `null`, which throws a `TypeError` in JavaScript
  (caught by each tool boundary and rendered as an `Error: ` payload),
  is modelled as the absent value where it occurs behind optional
  chaining in expressions such as `data.chart?.error`.
-/

/-! ## JavaScript string primitives -/

/-- JavaScript `String.prototype.split` with a one-character separator
(the source only splits on `","` and `";"`). -/
def splitChar (sep : Char) (s : String) : List String :=
  (s.toList.foldr
    (fun c acc =>
      match acc with
      | [] => [[c]]
      | cur :: rest => if c = sep then [] :: (cur :: rest) else (c :: cur) :: rest)
    [[]]).map (fun cs => String.mk cs)

/-- Whitespace recognised by JavaScript `String.prototype.trim` (ASCII
subset; the cookie strings involved never contain exotic whitespace). -/
def isJsSpace (c : Char) : Bool :=
  c = ' ' || c = Char.ofNat 9 || c = Char.ofNat 10 || c = Char.ofNat 13 ||
  c = Char.ofNat 11 || c = Char.ofNat 12

/-- JavaScript `String.prototype.trim`. -/
def trimJs (s : String) : String :=
  String.mk (((s.toList.dropWhile isJsSpace).reverse.dropWhile isJsSpace).reverse)

/-- Auxiliary: does `pat` occur at the head of `l`? -/
def isPrefixOfList : List Char → List Char → Bool
  | [], _ => true
  | _ :: _, [] => false
  | p :: ps, c :: cs => p = c && isPrefixOfList ps cs

/-- Auxiliary: does `pat` occur anywhere in `l`? -/
def hasSubList (pat : List Char) : List Char → Bool
  | [] => isPrefixOfList pat []
  | c :: cs => isPrefixOfList pat (c :: cs) || hasSubList pat cs

/-- JavaScript `String.prototype.includes`. -/
def containsSub (s pat : String) : Bool :=
  hasSubList pat.toList s.toList

/-- UTF-8 bytes of a character, as used by `encodeURIComponent`. -/
def utf8Bytes (c : Char) : List Nat :=
  let n := c.toNat
  if n < 128 then [n]
  else if n < 2048 then [192 + n / 64, 128 + n % 64]
  else if n < 65536 then [224 + n / 4096, 128 + n / 64 % 64, 128 + n % 64]
  else [240 + n / 262144, 128 + n / 4096 % 64, 128 + n / 64 % 64, 128 + n % 64]

/-- Upper-case hexadecimal digit. -/
def hexDigitU (n : Nat) : Char :=
  if n < 10 then Char.ofNat (48 + n) else Char.ofNat (55 + n)

/-- Percent-encoding of one byte, upper-case as produced by
`encodeURIComponent`. -/
def pctByte (b : Nat) : String :=
  "%" ++ String.singleton (hexDigitU (b / 16 % 16)) ++ String.singleton (hexDigitU (b % 16))

/-- Characters `encodeURIComponent` leaves unescaped:
letters, digits, and `- _ . ! ~ * ' ( )`. -/
def isURIUnescaped (c : Char) : Bool :=
  (('A' ≤ c && c ≤ 'Z') || ('a' ≤ c && c ≤ 'z') || ('0' ≤ c && c ≤ '9')) ||
  (c = '-' || c = '_' || c = '.' || c = '!' || c = '~' || c = '*' ||
   c = Char.ofNat 39 || c = '(' || c = ')')

/-- JavaScript `encodeURIComponent`. -/
def encodeURIComponent (s : String) : String :=
  String.join (s.toList.map (fun c =>
    if isURIUnescaped c then String.singleton c
    else String.join ((utf8Bytes c).map pctByte)))

/-! ## Date formatting (`Date.prototype.toISOString`) -/

/-- Left-pad a natural number with zeros to the given width. -/
def padNum (width : Nat) (n : Nat) : String :=
  let s := toString n
  if s.length < width then String.mk (List.replicate (width - s.length) '0') ++ s else s

/-- Proleptic-Gregorian civil date from a day count relative to
1970-01-01 (standard days-to-civil conversion). -/
def civilFromDays (z0 : Int) : Int × Int × Int :=
  let z := z0 + 719468
  let era := Int.fdiv z 146097
  let doe := z - era * 146097
  let yoe := Int.fdiv (doe - Int.fdiv doe 1460 + Int.fdiv doe 36524 - Int.fdiv doe 146096) 365
  let doy := doe - (365 * yoe + Int.fdiv yoe 4 - Int.fdiv yoe 100)
  let mp := Int.fdiv (5 * doy + 2) 153
  let d := doy - Int.fdiv (153 * mp + 2) 5 + 1
  let m := if mp < 10 then mp + 3 else mp - 9
  (yoe + era * 400 + (if m ≤ 2 then 1 else 0), m, d)

/-- JavaScript `Date.prototype.toISOString` on an epoch-millisecond
value.  Years outside 0000–9999 use an expanded form in JavaScript;
every date in the claims is within range. -/
def toISOString (ms : Int) : String :=
  let days := Int.fdiv ms 86400000
  let rem := (ms - days * 86400000).toNat
  let c := civilFromDays days
  padNum 4 c.1.toNat ++ "-" ++ padNum 2 c.2.1.toNat ++ "-" ++ padNum 2 c.2.2.toNat ++
  "T" ++ padNum 2 (rem / 3600000) ++ ":" ++ padNum 2 (rem % 3600000 / 60000) ++
  ":" ++ padNum 2 (rem % 60000 / 1000) ++ "." ++ padNum 3 (rem % 1000) ++ "Z"

/-! ## JavaScript number rendering -/

/-- Epoch milliseconds `trunc(q * 1000)` of an epoch-second value, the
truncation being the one the `Date` constructor applies to a
fractional argument (computed on numerator and denominator so that the
kernel can evaluate it). -/
def epochMs (q : Rat) : Int :=
  Int.tdiv (q.num * 1000) q.den

/-- JavaScript number division `a / b` for a non-zero `b`, as an exact
rational (computed on numerators and denominators). -/
def jsDivide (a b : Rat) : Rat :=
  if b.num < 0 then mkRat (-(a.num * (b.den : Int))) (a.den * b.num.natAbs)
  else mkRat (a.num * (b.den : Int)) (a.den * b.num.natAbs)

/-- Smallest `k ≤ fuel` with `den ∣ 10 ^ k`, if any. -/
def findDecExpAux (den : Nat) : Nat → Nat → Option Nat
  | _, 0 => none
  | k, fuel + 1 => if 10 ^ k % den = 0 then some k else findDecExpAux den (k + 1) fuel

/-- Decimal exponent used to render a rational exactly. -/
def findDecExp (den : Nat) : Option Nat :=
  findDecExpAux den 0 100

/-- Decimal rendering of a JavaScript number (`String(x)` and the
`JSON.stringify` number form).  Exact for integers and for rationals
with a finite decimal expansion — which covers every number the claims
touch; other rationals (which a float cannot hold exactly anyway) fall
back to a fraction form never exercised by the claims. -/
def ratToJsString (q : Rat) : String :=
  if q.den = 1 then toString q.num
  else
    match findDecExp q.den with
    | some k =>
      let n := (q.num * (10 : Int) ^ k / (q.den : Int)).natAbs
      (if q.num < 0 then "-" else "") ++ toString (n / 10 ^ k) ++ "." ++ padNum k (n % 10 ^ k)
    | none => toString q.num ++ "/" ++ toString q.den

/-! ## JSON values -/

/-- JSON-like runtime values (the shapes produced by `response.json()`). -/
inductive JVal where
  | jnull : JVal
  | jbool : Bool → JVal
  | jnum : Rat → JVal
  | jstr : String → JVal
  | jarr : List JVal → JVal
  | jobj : List (String × JVal) → JVal

/-- First binding of a key in a field list (JavaScript objects hold each
key once, so first-match lookup agrees with property access). -/
def lookupField : List (String × JVal) → String → Option JVal
  | [], _ => none
  | (k, v) :: rest, key => if k = key then some v else lookupField rest key

/-- Property access `v.key` (returns the absent value on non-objects,
matching access through optional chaining). -/
def JVal.get? : JVal → String → Option JVal
  | .jobj fs, k => lookupField fs k
  | _, _ => none

/-- Optional-chained property access on a possibly-absent value. -/
def jget (o : Option JVal) (k : String) : Option JVal :=
  o.bind (fun v => v.get? k)

/-- Element access `v?.[i]`. -/
def jindex (o : Option JVal) (i : Nat) : Option JVal :=
  match o with
  | some (.jarr xs) => xs.get? i
  | _ => none

/-- JavaScript truthiness (`NaN`, which is also falsy, has no
representative among exact rationals). -/
def JVal.truthy : JVal → Bool
  | .jnull => false
  | .jbool b => b
  | .jnum q => !(q == 0)
  | .jstr s => !(s == "")
  | .jarr _ => true
  | .jobj _ => true

/-- Truthiness of a possibly-absent value (`undefined` is falsy). -/
def truthyOpt (o : Option JVal) : Bool :=
  match o with
  | none => false
  | some v => v.truthy

/-- JavaScript `x || d`. -/
def jsOr (o : Option JVal) (d : JVal) : JVal :=
  match o with
  | none => d
  | some v => if v.truthy then v else d

/-- Does `typeof v` equal `"object"`? (`null` and arrays included.) -/
def isTypeofObject : JVal → Bool
  | .jnull => true
  | .jarr _ => true
  | .jobj _ => true
  | _ => false

/-- Key membership in a field list. -/
def hasKeyF (fs : List (String × JVal)) (k : String) : Bool :=
  fs.any (fun kv => kv.1 = k)

/-- The test `value && typeof value === "object" && "key" in value`.
JSON-sourced arrays carry no non-index own property, so only proper
objects can pass. -/
def hasOwnObj (v : JVal) (k : String) : Bool :=
  match v with
  | .jobj fs => hasKeyF fs k
  | _ => false

/-- Index-key entries of a list (array own enumerable properties). -/
def enumIdx (xs : List JVal) : List (String × JVal) :=
  (xs.enum).map (fun p => (toString p.1, p.2))

/-- Own enumerable `[key, value]` entries, as iterated by
`Object.entries` / spread / `Object.assign`.  `Object.entries(null)`
throws in JavaScript; callers below only reach this behind a
truthiness or `|| default` guard. -/
def jsOwnEntries : JVal → List (String × JVal)
  | .jobj fs => fs
  | .jarr xs => enumIdx xs
  | .jstr s => enumIdx (s.toList.map (fun c => JVal.jstr (String.singleton c)))
  | _ => []

/-- Own enumerable values, as returned by `Object.values`. -/
def jsOwnValues (v : JVal) : List JVal :=
  (jsOwnEntries v).map (fun kv => kv.2)

/-- Property write `obj[k] = v`: replace in place if the key exists,
else append (JavaScript key-order semantics). -/
def setField : List (String × JVal) → String → JVal → List (String × JVal)
  | [], k, v => [(k, v)]
  | (k0, v0) :: rest, k, v =>
    if k0 = k then (k0, v) :: rest else (k0, v0) :: setField rest k v

/-- `Object.assign(target, source)` restricted to a field list source. -/
def assignFields (tgt : List (String × JVal)) (src : List (String × JVal)) : List (String × JVal) :=
  src.foldl (fun t kv => setField t kv.1 kv.2) tgt

/-- The JavaScript `SameValueZero` comparison made by
`Set.prototype.has`: value equality on primitives, reference equality
on objects and arrays.  Distinct nodes of a parsed JSON document are
distinct references, so object-valued comparands are never equal; the
`firm` keys the code actually compares are strings. -/
def jeq : JVal → JVal → Bool
  | .jnull, .jnull => true
  | .jbool a, .jbool b => a == b
  | .jnum a, .jnum b => a == b
  | .jstr a, .jstr b => a == b
  | _, _ => false

/-- Equality on possibly-absent values (`undefined` equals itself under
`SameValueZero`). -/
def jeqOpt : Option JVal → Option JVal → Bool
  | none, none => true
  | some a, some b => jeq a b
  | _, _ => false

/-! ## JSON serialisation (`JSON.stringify`) -/

/-- Opening brace character, kept out of string literals. -/
def lbr : String := String.singleton (Char.ofNat 123)

/-- Closing brace character. -/
def rbr : String := String.singleton (Char.ofNat 125)

/-- Double-quote character. -/
def dq : String := String.singleton (Char.ofNat 34)

/-- Backslash character. -/
def bsl : String := String.singleton (Char.ofNat 92)

/-- JSON string escaping as performed by `JSON.stringify`. -/
def escapeJsonChar (c : Char) : String :=
  if c = Char.ofNat 34 then bsl ++ dq
  else if c = Char.ofNat 92 then bsl ++ bsl
  else if c = Char.ofNat 10 then bsl ++ "n"
  else if c = Char.ofNat 13 then bsl ++ "r"
  else if c = Char.ofNat 9 then bsl ++ "t"
  else if c = Char.ofNat 8 then bsl ++ "b"
  else if c = Char.ofNat 12 then bsl ++ "f"
  else if c.toNat < 32 then bsl ++ "u" ++ padNum 4 c.toNat
  else String.singleton c

/-- Quoted JSON string literal. -/
def quoteJson (s : String) : String :=
  dq ++ String.join (s.toList.map escapeJsonChar) ++ dq

mutual

/-- `JSON.stringify` on a JSON value (no indentation argument). -/
def serializeJ : JVal → String
  | .jnull => "null"
  | .jbool b => if b then "true" else "false"
  | .jnum q => ratToJsString q
  | .jstr s => quoteJson s
  | .jarr xs => "[" ++ serializeJList xs ++ "]"
  | .jobj fs => lbr ++ serializeJFields fs ++ rbr

/-- Comma-separated serialisation of array elements. -/
def serializeJList : List JVal → String
  | [] => ""
  | [x] => serializeJ x
  | x :: y :: rest => serializeJ x ++ "," ++ serializeJList (y :: rest)

/-- Comma-separated serialisation of object fields. -/
def serializeJFields : List (String × JVal) → String
  | [] => ""
  | [(k, v)] => quoteJson k ++ ":" ++ serializeJ v
  | (k, v) :: f :: rest => quoteJson k ++ ":" ++ serializeJ v ++ "," ++ serializeJFields (f :: rest)

end

/-- `JSON.stringify` applied to a possibly-absent value.  On the absent
value JavaScript returns the `undefined` value itself, which the tool
transport renders as the text `undefined`. -/
def stringifyTop : Option JVal → String
  | none => "undefined"
  | some v => serializeJ v

/-- Template-literal rendering `${x}` of a possibly-absent value.
Array rendering joins elements with commas, displaying `null` holes as
empty (claim-relevant displays are strings and numbers). -/
def jsDisplay : Option JVal → String
  | none => "undefined"
  | some .jnull => "null"
  | some (.jbool b) => if b then "true" else "false"
  | some (.jnum q) => ratToJsString q
  | some (.jstr s) => s
  | some (.jarr _) => ""
  | some (.jobj _) => "[object Object]"

example : encodeURIComponent "c&d" = "c%26d" := by decide
example : toISOString 50000 = "1970-01-01T00:00:50.000Z" := by decide
example : ratToJsString (mkRat 1 2) = "0.5" := by decide
example : splitChar ',' "a=1; Path=/,b=2" = ["a=1; Path=/", "b=2"] := by decide
example : trimJs "  b=2" = "b=2" := by decide

/-! ## Credential cache and handshake

Embedding of `getCrumb` (src/yahoo-finance-api.ts, lines 8-79) and of
`getCookieAndCrumb` (the unnamed duplicate implementation, lines 8-52).
The module-level mutable variables `cachedCrumb` / `cachedCookie` /
`cacheExpiry` become an explicit `CacheState`; `Date.now()` becomes the
`now` argument; the two or three network exchanges of one refresh
become the oracle structures below.  `nCalls` counts the outbound HTTP
requests the call performs, so that "no network I/O" is expressible. -/

/-- The process-wide credential cache (`cachedCrumb`, `cachedCookie`,
`cacheExpiry`, initially `null` / `null` / `0`). -/
structure CacheState where
  cachedCrumb : Option String
  cachedCookie : Option String
  cacheExpiry : Int
deriving DecidableEq

/-- The pair returned by a successful acquisition. -/
structure AuthPair where
  crumb : String
  cookie : String
deriving DecidableEq

/-- Truthiness of a nullable string variable. -/
def truthyS : Option String → Bool
  | none => false
  | some s => !(s == "")

/-- The guard `cachedCrumb && cachedCookie && now < cacheExpiry`. -/
def hitGuard (st : CacheState) (now : Int) : Bool :=
  truthyS st.cachedCrumb && truthyS st.cachedCookie && decide (now < st.cacheExpiry)

/-- Network oracle for one `getCrumb` refresh: the `fc.yahoo.com`
response, the fallback `finance.yahoo.com` response, and the crumb
endpoint response.  A `throws` flag models the corresponding `fetch`
rejecting (the surrounding `try`/`catch` swallows the message). -/
structure CrumbNet where
  fcThrows : Bool
  fcSetCookie : Option String
  financeThrows : Bool
  financeSetCookie : Option String
  crumbThrows : Bool
  crumbOk : Bool
  crumbStatus : Nat
  crumbBody : String

/-- Cookie assembly in `getCrumb`:
`setCookie.split(",").map(c => c.split(";")[0].trim()).filter(Boolean).join("; ")`,
applied when the `set-cookie` header is present and non-empty. -/
def joinCookiesF (sc : String) : String :=
  String.intercalate "; "
    (((splitChar ',' sc).map (fun c => trimJs ((splitChar ';' c).headD ""))).filter
      (fun s => !(s == "")))

/-- Value of the `cookies` variable after reading one `set-cookie`
header (an absent or empty header leaves it empty). -/
def cookiesOfHeader (h : Option String) : String :=
  match h with
  | none => ""
  | some sc => if sc == "" then "" else joinCookiesF sc

/-- Result of one `getCrumb` call. -/
structure CrumbResult where
  auth : Option AuthPair
  state : CacheState
  nCalls : Nat
deriving DecidableEq

/-- Crumb-endpoint step of `getCrumb` (lines 49-74): give up if no
cookie was assembled, validate the crumb response, and on success cache
and return the pair with expiry `now + 30 * 60 * 1000`. -/
def crumbStep (now : Int) (net : CrumbNet) (cookies : String) (calls : Nat)
    (st : CacheState) : CrumbResult :=
  if cookies == "" then ⟨none, st, calls⟩
  else if net.crumbThrows then ⟨none, st, calls + 1⟩
  else if !net.crumbOk then ⟨none, st, calls + 1⟩
  else if net.crumbBody == "" || containsSub net.crumbBody "<" ||
       containsSub net.crumbBody "error" then ⟨none, st, calls + 1⟩
  else
    ⟨some ⟨net.crumbBody, cookies⟩,
     ⟨some net.crumbBody, some cookies, now + 1800000⟩, calls + 1⟩

/-- `getCrumb` (src/yahoo-finance-api.ts, lines 18-79).  Every failure
path returns `null` with the cache untouched; the `try`/`catch` turns a
rejected `fetch` into the same `null` result. -/
def getCrumb (now : Int) (net : CrumbNet) (st : CacheState) : CrumbResult :=
  if hitGuard st now then
    ⟨some ⟨st.cachedCrumb.getD "", st.cachedCookie.getD ""⟩, st, 0⟩
  else if net.fcThrows then ⟨none, st, 1⟩
  else if cookiesOfHeader net.fcSetCookie == "" then
    if net.financeThrows then ⟨none, st, 2⟩
    else crumbStep now net (cookiesOfHeader net.financeSetCookie) 2 st
  else crumbStep now net (cookiesOfHeader net.fcSetCookie) 1 st

/-- Network oracle for one `getCookieAndCrumb` refresh (duplicate
implementation): the `finance.yahoo.com` response and the crumb
endpoint response.  `Option String` throw slots carry the rendered
message of a rejected `fetch`, which this function does not catch.
`crumbOk` and `crumbStatus` exist on the response but are never
consulted by the code. -/
structure P1Net where
  homeThrow : Option String
  homeSetCookie : Option String
  crumbThrow : Option String
  crumbOk : Bool
  crumbStatus : Nat
  crumbBody : String

/-- Cookie assembly in `getCookieAndCrumb`:
`setCookieHeader.split(",").map(c => c.split(";")[0].trim()).join("; ")`
(no `filter(Boolean)`, unlike `getCrumb`). -/
def joinCookiesNF (sc : String) : String :=
  String.intercalate "; "
    ((splitChar ',' sc).map (fun c => trimJs ((splitChar ';' c).headD "")))

/-- Result of one `getCookieAndCrumb` call; `Except` models that the
function throws (rather than returning) on failure. -/
structure P1Result where
  outcome : Except String AuthPair
  state : CacheState
  nCalls : Nat

/-- `getCookieAndCrumb` (duplicate implementation, lines 18-52).  The
error strings are the template renderings of the thrown `Error`s. -/
def getCookieAndCrumb (now : Int) (net : P1Net) (st : CacheState) : P1Result :=
  if hitGuard st now then
    ⟨.ok ⟨st.cachedCrumb.getD "", st.cachedCookie.getD ""⟩, st, 0⟩
  else
    match net.homeThrow with
    | some d => ⟨.error d, st, 1⟩
    | none =>
      if joinCookiesNF (net.homeSetCookie.getD "") == "" then
        ⟨.error "Error: Failed to get Yahoo cookie", st, 1⟩
      else
        match net.crumbThrow with
        | some d => ⟨.error d, st, 2⟩
        | none =>
          if net.crumbBody == "" || containsSub net.crumbBody "error" then
            ⟨.error "Error: Failed to get Yahoo crumb", st, 2⟩
          else
            ⟨.ok ⟨net.crumbBody, joinCookiesNF (net.homeSetCookie.getD "")⟩,
             ⟨some net.crumbBody, some (joinCookiesNF (net.homeSetCookie.getD "")),
              now + 1800000⟩, 2⟩

/-! ## Authenticated fetch wrapper (URL and header construction) -/

/-- The outgoing request assembled by `fetchYahoo`: final URL and the
`Cookie` header if one was attached (the fixed browser-like headers are
constant and omitted). -/
structure OutRequest where
  url : String
  cookie : Option String
deriving DecidableEq

/-- URL/header construction of `fetchYahoo`
(src/yahoo-finance-api.ts, lines 81-93): when authentication is
requested and acquisition succeeded, attach the cookie header and
append `crumb=<url-encoded crumb>` with `&` if the URL already contains
`?`, else `?`; when acquisition failed, proceed unauthenticated. -/
def buildRequest (url : String) (needsCrumb : Bool) (auth : Option AuthPair) : OutRequest :=
  if needsCrumb then
    match auth with
    | some a =>
      ⟨url ++ (if containsSub url "?" then "&" else "?") ++ "crumb=" ++
         encodeURIComponent a.crumb, some a.cookie⟩
    | none => ⟨url, none⟩
  else ⟨url, none⟩

/-- `fetchYahoo`'s request construction composed with `getCrumb`. -/
def fetchYahooRequest (url : String) (needsCrumb : Bool) (now : Int) (net : CrumbNet)
    (st : CacheState) : OutRequest :=
  buildRequest url needsCrumb (getCrumb now net st).auth

/-- URL/header construction of the duplicate implementation's
`fetchYahoo` (lines 54-62); there acquisition is mandatory, so the
request is only built from a successfully returned pair. -/
def buildRequestP1 (url : String) (useCrumb : Bool) (a : AuthPair) : OutRequest :=
  if useCrumb then
    ⟨url ++ (if containsSub url "?" then "&" else "?") ++ "crumb=" ++
       encodeURIComponent a.crumb, some a.cookie⟩
  else ⟨url, none⟩

/-- The duplicate `fetchYahoo` composed with `getCookieAndCrumb`; a
thrown acquisition failure propagates. -/
def fetchYahooRequestP1 (url : String) (useCrumb : Bool) (now : Int) (net : P1Net)
    (st : CacheState) : Except String OutRequest :=
  if useCrumb then
    match (getCookieAndCrumb now net st).outcome with
    | .error d => .error d
    | .ok a => .ok (buildRequestP1 url true a)
  else .ok ⟨url, none⟩

/-! ## Data-fetch pipeline shared by the nine tool functions

Each tool function performs exactly one `fetchYahoo` call followed by
`response.json()` inside a `try` block whose `catch` renders any thrown
value as `Error: <rendering>`.  The observable outcome of that network
exchange is modelled by `FetchEvent`; URL construction (covered
separately through `buildRequest`) does not influence the oracle. -/

/-- A data-endpoint HTTP response: `ok`/`status`, the body text (used
only for the error preview), and the outcome of `response.json()`
(`Except.error` carries the rendering of a body-parse exception). -/
structure NetResponse where
  ok : Bool
  status : Nat
  bodyText : String
  bodyJson : Except String JVal

/-- Observable outcome of one `fetchYahoo` invocation: either the
underlying `fetch` (or mandatory credential acquisition) threw, or a
response arrived. -/
inductive FetchEvent where
  | thrown : String → FetchEvent
  | resp : NetResponse → FetchEvent

/-- Status check of `fetchYahoo` (src/yahoo-finance-api.ts, lines
93-98): a non-success status throws
`new Error(`HTTP <status>: <first 200 body characters>`)`,
whose catch-side rendering is prefixed by an additional `Error: `. -/
def fetchYahooCheck : FetchEvent → Except String NetResponse
  | .thrown d => .error d
  | .resp r =>
    if r.ok then .ok r
    else .error ("Error: HTTP " ++ toString r.status ++ ": " ++ r.bodyText.take 200)

/-- The `try`/`catch` wrapper common to all nine tool functions: a
caught exception is returned as `Error: <rendering>`. -/
def runTool : Except String String → String
  | .ok s => s
  | .error d => "Error: " ++ d

/-- Fetch-then-parse prelude common to all nine tool functions. -/
def toolPipeline (ev : FetchEvent) (k : JVal → Except String String) : Except String String := do
  let r ← fetchYahooCheck ev
  let data ← r.bodyJson
  k data

/-! ## Tool parameter enumerations -/

/-- The `FinancialType` union. -/
inductive FinancialType where
  | income_stmt | quarterly_income_stmt
  | balance_sheet | quarterly_balance_sheet
  | cashflow | quarterly_cashflow

/-- String value of a `FinancialType`. -/
def ftString : FinancialType → String
  | .income_stmt => "income_stmt"
  | .quarterly_income_stmt => "quarterly_income_stmt"
  | .balance_sheet => "balance_sheet"
  | .quarterly_balance_sheet => "quarterly_balance_sheet"
  | .cashflow => "cashflow"
  | .quarterly_cashflow => "quarterly_cashflow"

/-- The `HolderType` union. -/
inductive HolderType where
  | major_holders | institutional_holders | mutualfund_holders
  | insider_transactions | insider_purchases | insider_roster_holders

/-- The `RecommendationType` union. -/
inductive RecommendationType where
  | recommendations | upgrades_downgrades

/-- The `"calls" | "puts"` union. -/
inductive OptionSide where
  | calls | puts

/-! ## getHistoricalStockPrices (lines 101-127) -/

/-- Nullish coalescing `x ?? y`: `null` and the absent value both fall
through to the alternative. -/
def nullish (o : Option JVal) : Option JVal :=
  match o with
  | some .jnull => none
  | _ => o

/-- One OHLCV record of `getHistoricalStockPrices`; `div.date`-style
timestamp coercion: a non-numeric timestamp makes
`new Date(ts * 1000).toISOString()` throw `RangeError: Invalid time
value` (numeric-string coercion is not modelled; claim-relevant
timestamps are numbers). -/
def priceRecord (quotes : JVal) (adjClose : Option JVal) (i : Nat) (ts : JVal) :
    Except String JVal :=
  match ts with
  | .jnum q =>
    .ok (.jobj
      [("Date", .jstr (toISOString (epochMs q))),
       ("Open", (jindex (jget (some quotes) "open") i).getD .jnull),
       ("High", (jindex (jget (some quotes) "high") i).getD .jnull),
       ("Low", (jindex (jget (some quotes) "low") i).getD .jnull),
       ("Close", (jindex (jget (some quotes) "close") i).getD .jnull),
       ("Volume", (jindex (jget (some quotes) "volume") i).getD .jnull),
       ("Adj Close",
         ((nullish (jindex adjClose i)).orElse
           (fun _ => nullish (jindex (jget (some quotes) "close") i))).getD .jnull)])
  | _ => .error "RangeError: Invalid time value"

/-- Index-aware traversal of the timestamp array. -/
def mapPriceRecords (quotes : JVal) (adjClose : Option JVal) (i : Nat) :
    List JVal → Except String (List JVal)
  | [] => .ok []
  | ts :: rest => do
    let r ← priceRecord quotes adjClose i ts
    let rs ← mapPriceRecords quotes adjClose (i + 1) rest
    .ok (r :: rs)

/-- Post-parse body of `getHistoricalStockPrices`. -/
def historicalBody (ticker : String) (data : JVal) : Except String String := do
  let chart := jget (some data) "chart"
  if truthyOpt (jget chart "error") then
    return "Error: " ++ jsDisplay (jget (jget chart "error") "description")
  let result := jindex (jget chart "result") 0
  if !(truthyOpt result) then
    return "Ticker " ++ ticker ++ " not found."
  let result := result.getD .jnull
  let timestamps := jsOr (jget (some result) "timestamp") (.jarr [])
  let quotes := jsOr (jindex (jget (jget (some result) "indicators") "quote") 0) (.jobj [])
  let adjClose := jget (jindex (jget (jget (some result) "indicators") "adjclose") 0) "adjclose"
  match timestamps with
  | .jarr ts => do
    let records ← mapPriceRecords quotes adjClose 0 ts
    return serializeJ (.jarr records)
  | _ => .error "TypeError: timestamps.map is not a function"

/-- `getHistoricalStockPrices` (the `period` and `interval` arguments
only enter the request URL, which the oracle already reflects). -/
def getHistoricalStockPrices (ticker : String) (period : String) (interval : String)
    (ev : FetchEvent) : String :=
  runTool (toolPipeline ev (historicalBody ticker))

/-! ## getStockInfo (lines 129-148) -/

/-- The module merge of `getStockInfo` (lines 140-143): iterate the
result's entries in order and `Object.assign` every truthy
object-typed value into one accumulator. -/
def mergeModules (modules : List (String × JVal)) : List (String × JVal) :=
  modules.foldl
    (fun info kv =>
      if kv.2.truthy && isTypeofObject kv.2 then assignFields info (jsOwnEntries kv.2)
      else info)
    []

/-- Post-parse body of `getStockInfo`. -/
def stockInfoBody (ticker : String) (data : JVal) : Except String String := do
  let qs := jget (some data) "quoteSummary"
  if truthyOpt (jget qs "error") then
    return "Error: " ++ jsDisplay (jget (jget qs "error") "description")
  let result := jindex (jget qs "result") 0
  if !(truthyOpt result) then
    return "Ticker " ++ ticker ++ " not found."
  return serializeJ (.jobj (mergeModules (jsOwnEntries (result.getD .jnull))))

/-- `getStockInfo`. -/
def getStockInfo (ticker : String) (ev : FetchEvent) : String :=
  runTool (toolPipeline ev (stockInfoBody ticker))

/-! ## getYahooFinanceNews (lines 150-165) -/

/-- Publication-time rendering inside a news block: absent or falsy
values yield the empty string, a numeric value is rendered through
`toISOString`, and a truthy non-numeric value makes `toISOString`
throw on the invalid date. -/
def newsTimeDisplay (o : Option JVal) : Except String String :=
  match o with
  | some (.jnum q) =>
    if q == 0 then .ok "" else .ok (toISOString (epochMs q))
  | some v => if v.truthy then .error "RangeError: Invalid time value" else .ok ""
  | none => .ok ""

/-- One `Title/Publisher/Published/URL` block. -/
def newsBlock (item : JVal) : Except String String := do
  let published ← newsTimeDisplay (jget (some item) "providerPublishTime")
  .ok ("Title: " ++ jsDisplay (some (jsOr (jget (some item) "title") (.jstr ""))) ++
    "\nPublisher: " ++ jsDisplay (some (jsOr (jget (some item) "publisher") (.jstr ""))) ++
    "\nPublished: " ++ published ++
    "\nURL: " ++ jsDisplay (some (jsOr (jget (some item) "link") (.jstr ""))))

/-- Traversal of the news items. -/
def mapNewsBlocks : List JVal → Except String (List String)
  | [] => .ok []
  | item :: rest => do
    let b ← newsBlock item
    let bs ← mapNewsBlocks rest
    .ok (b :: bs)

/-- Post-parse body of `getYahooFinanceNews`.  This function checks no
embedded error object: any successfully parsed response flows into the
`news.length === 0` test. -/
def newsBody (ticker : String) (data : JVal) : Except String String := do
  let news := jsOr (jget (some data) "news") (.jarr [])
  match news with
  | .jarr [] => return "No news found for " ++ ticker ++ "."
  | .jarr items => do
    let blocks ← mapNewsBlocks items
    return String.intercalate "\n\n" blocks
  | _ => .error "TypeError: news.map is not a function"

/-- `getYahooFinanceNews`. -/
def getYahooFinanceNews (ticker : String) (ev : FetchEvent) : String :=
  runTool (toolPipeline ev (newsBody ticker))

/-! ## getStockActions (lines 167-192) -/

/-- One merged dividend/split record.  `dividends` is the property
value `div.amount` (or `0` for splits); an absent `amount`, which
`JSON.stringify` would drop from the record, is an absent option. -/
structure StockAction where
  dateMs : Int
  dividends : Option JVal
  splits : JVal

/-- A dividend event mapped to its record (lines 180-182):
`Date` from `div.date * 1000`, `Dividends` from `div.amount`,
`"Stock Splits"` fixed to `0`. -/
def divAction (div : JVal) : Except String StockAction :=
  match jget (some div) "date" with
  | some (.jnum q) => .ok ⟨epochMs q, jget (some div) "amount", .jnum 0⟩
  | _ => .error "RangeError: Invalid time value"

/-- The ratio `split.numerator / split.denominator`.  On non-numeric
operands or a zero denominator JavaScript produces `NaN` or an
infinity, which `JSON.stringify` renders as `null`; the model carries
that serialised form directly. -/
def splitRatioVal (split : JVal) : JVal :=
  match jget (some split) "numerator", jget (some split) "denominator" with
  | some (.jnum n), some (.jnum d) => if d == 0 then .jnull else .jnum (jsDivide n d)
  | _, _ => .jnull

/-- A split event mapped to its record (lines 183-185). -/
def splitAction (split : JVal) : Except String StockAction :=
  match jget (some split) "date" with
  | some (.jnum q) => .ok ⟨epochMs q, some (.jnum 0), splitRatioVal split⟩
  | _ => .error "RangeError: Invalid time value"

/-- Effectful traversal of event values. -/
def mapActions (f : JVal → Except String StockAction) : List JVal → Except String (List StockAction)
  | [] => .ok []
  | v :: rest => do
    let a ← f v
    let as' ← mapActions f rest
    .ok (a :: as')

/-- Sort order of line 187.  The source compares
`new Date(a.Date).getTime()`, and parsing the `toISOString` rendering
returns exactly the stored epoch milliseconds, so the comparator is the
order on `dateMs`.  `Array.prototype.sort` is required to be stable,
and for a comparator consistent with a total preorder the stable
sorted permutation is unique, so the stable `List.insertionSort`
models it exactly. -/
def actionOrder (a b : StockAction) : Prop :=
  a.dateMs ≤ b.dateMs

instance : DecidableRel actionOrder :=
  fun a b => inferInstanceAs (Decidable (a.dateMs ≤ b.dateMs))

instance : IsTotal StockAction actionOrder :=
  ⟨fun a b => le_total a.dateMs b.dateMs⟩

instance : IsTrans StockAction actionOrder :=
  ⟨fun _ _ _ hab hbc => le_trans hab hbc⟩

/-- JSON record for one action, in the key order of the source. -/
def actionJson (a : StockAction) : JVal :=
  .jobj ([("Date", JVal.jstr (toISOString a.dateMs))] ++
    (match a.dividends with
     | some v => [("Dividends", v)]
     | none => []) ++
    [("Stock Splits", a.splits)])

/-- Serialisation of the final action array, dropping `undefined`
`Dividends` entries exactly as `JSON.stringify` does. -/
def serializeActions (l : List StockAction) : String :=
  serializeJ (.jarr (l.map actionJson))

/-- The merge-and-sort pipeline of `getStockActions`: dividend records
first, split records second, then the stable sort by date. -/
def actionsPipeline (divs splits : List JVal) : Except String (List StockAction) := do
  let da ← mapActions divAction divs
  let sa ← mapActions splitAction splits
  .ok (List.insertionSort actionOrder (da ++ sa))

/-- Post-parse body of `getStockActions`. -/
def stockActionsBody (ticker : String) (data : JVal) : Except String String := do
  let chart := jget (some data) "chart"
  if truthyOpt (jget chart "error") then
    return "Error: " ++ jsDisplay (jget (jget chart "error") "description")
  let result := jindex (jget chart "result") 0
  if !(truthyOpt result) then
    return "Ticker " ++ ticker ++ " not found."
  let events := jsOr (jget result "events") (.jobj [])
  let dividends := jsOr (jget (some events) "dividends") (.jobj [])
  let splits := jsOr (jget (some events) "splits") (.jobj [])
  let actions ← actionsPipeline (jsOwnValues dividends) (jsOwnValues splits)
  return serializeActions actions

/-- `getStockActions`. -/
def getStockActions (ticker : String) (ev : FetchEvent) : String :=
  runTool (toolPipeline ev (stockActionsBody ticker))

/-! ## getFinancialStatement (lines 194-244) -/

/-- Per-statement flattening transform of `getFinancialStatement`
(lines 228-240): unwrap top-level `{raw: x}` field values, rename an
`endDate` field carrying an `{fmt: s}` object to `date`, copy
everything else unchanged.  `Object.entries(null)` throws. -/
def flattenStmtE (stmt : JVal) : Except String JVal :=
  match stmt with
  | .jnull => .error "TypeError: Cannot convert undefined or null to object"
  | v =>
    .ok (.jobj ((jsOwnEntries v).foldl
      (fun obj kv =>
        if hasOwnObj kv.2 "raw" then
          setField obj kv.1 ((kv.2.get? "raw").getD .jnull)
        else if kv.1 = "endDate" && hasOwnObj kv.2 "fmt" then
          setField obj "date" ((kv.2.get? "fmt").getD .jnull)
        else
          setField obj kv.1 kv.2)
      []))

/-- Effectful traversal of statements. -/
def mapFlatten : List JVal → Except String (List JVal)
  | [] => .ok []
  | s :: rest => do
    let f ← flattenStmtE s
    let fs ← mapFlatten rest
    .ok (f :: fs)

/-- Statement-array extraction of lines 216-226, keyed off substring
tests on the financial-type string. -/
def statementsVal (ft : FinancialType) (result : JVal) : JVal :=
  if containsSub (ftString ft) "income" then
    let key := if containsSub (ftString ft) "quarterly" then "incomeStatementHistoryQuarterly"
               else "incomeStatementHistory"
    jsOr (jget (jget (some result) key) "incomeStatementHistory") (.jarr [])
  else if containsSub (ftString ft) "balance" then
    let key := if containsSub (ftString ft) "quarterly" then "balanceSheetHistoryQuarterly"
               else "balanceSheetHistory"
    jsOr (jget (jget (some result) key) "balanceSheetStatements") (.jarr [])
  else if containsSub (ftString ft) "cashflow" then
    let key := if containsSub (ftString ft) "quarterly" then "cashflowStatementHistoryQuarterly"
               else "cashflowStatementHistory"
    jsOr (jget (jget (some result) key) "cashflowStatements") (.jarr [])
  else .jarr []

/-- Post-parse body of `getFinancialStatement` (the `moduleMap` lookup
is total over the enumerated type, so the `Invalid financial type`
branch is unreachable and the module name only enters the URL). -/
def financialBody (ticker : String) (ft : FinancialType) (data : JVal) : Except String String := do
  let qs := jget (some data) "quoteSummary"
  if truthyOpt (jget qs "error") then
    return "Error: " ++ jsDisplay (jget (jget qs "error") "description")
  let result := jindex (jget qs "result") 0
  if !(truthyOpt result) then
    return "Ticker " ++ ticker ++ " not found."
  match statementsVal ft (result.getD .jnull) with
  | .jarr stmts => do
    let flat ← mapFlatten stmts
    return serializeJ (.jarr flat)
  | _ => .error "TypeError: statements.map is not a function"

/-- `getFinancialStatement`. -/
def getFinancialStatement (ticker : String) (ft : FinancialType) (ev : FetchEvent) : String :=
  runTool (toolPipeline ev (financialBody ticker ft))

/-! ## getHolderInfo (lines 246-295) -/

mutual

/-- The recursive `extractRaw` helper (lines 278-289): unwrap any
object carrying a `raw` key to that value, recurse into arrays and
other objects, pass primitives through. -/
def extractRaw : JVal → JVal
  | .jnull => .jnull
  | .jbool b => .jbool b
  | .jnum q => .jnum q
  | .jstr s => .jstr s
  | .jarr xs => .jarr (extractRawList xs)
  | .jobj fs =>
    if hasKeyF fs "raw" then (lookupField fs "raw").getD .jnull
    else .jobj (extractRawFields fs)

/-- `extractRaw` mapped over array elements. -/
def extractRawList : List JVal → List JVal
  | [] => []
  | x :: xs => extractRaw x :: extractRawList xs

/-- `extractRaw` mapped over object fields. -/
def extractRawFields : List (String × JVal) → List (String × JVal)
  | [] => []
  | (k, v) :: fs => (k, extractRaw v) :: extractRawFields fs

end

/-- Holder-data selection of the `switch` at lines 269-276; the absent
option models `undefined`. -/
def holdersVal (ht : HolderType) (result : JVal) : Option JVal :=
  match ht with
  | .major_holders => jget (some result) "majorHoldersBreakdown"
  | .institutional_holders =>
    some (jsOr (jget (jget (some result) "institutionOwnership") "ownershipList") (.jarr []))
  | .mutualfund_holders =>
    some (jsOr (jget (jget (some result) "fundOwnership") "ownershipList") (.jarr []))
  | .insider_transactions =>
    some (jsOr (jget (jget (some result) "insiderTransactions") "transactions") (.jarr []))
  | .insider_purchases => jget (some result) "netSharePurchaseActivity"
  | .insider_roster_holders =>
    some (jsOr (jget (jget (some result) "insiderHolders") "holders") (.jarr []))

/-- Post-parse body of `getHolderInfo`. -/
def holderBody (ticker : String) (ht : HolderType) (data : JVal) : Except String String := do
  let qs := jget (some data) "quoteSummary"
  if truthyOpt (jget qs "error") then
    return "Error: " ++ jsDisplay (jget (jget qs "error") "description")
  let result := jindex (jget qs "result") 0
  if !(truthyOpt result) then
    return "Ticker " ++ ticker ++ " not found."
  return stringifyTop ((holdersVal ht (result.getD .jnull)).map extractRaw)

/-- `getHolderInfo`. -/
def getHolderInfo (ticker : String) (ht : HolderType) (ev : FetchEvent) : String :=
  runTool (toolPipeline ev (holderBody ticker ht))

/-! ## getOptionExpirationDates (lines 297-313) -/

/-- Date-only part of an ISO timestamp (`.split("T")[0]`). -/
def isoDatePart (s : String) : String :=
  (s.splitOn "T").headD ""

/-- Expiration-timestamp rendering; a non-numeric entry throws on
`toISOString`. -/
def expirationEntry (ts : JVal) : Except String JVal :=
  match ts with
  | .jnum q => .ok (.jstr (isoDatePart (toISOString (epochMs q))))
  | _ => .error "RangeError: Invalid time value"

/-- Traversal of the expiration timestamps. -/
def mapExpirations : List JVal → Except String (List JVal)
  | [] => .ok []
  | ts :: rest => do
    let e ← expirationEntry ts
    let es ← mapExpirations rest
    .ok (e :: es)

/-- Post-parse body of `getOptionExpirationDates`. -/
def expirationsBody (ticker : String) (data : JVal) : Except String String := do
  let oc := jget (some data) "optionChain"
  if truthyOpt (jget oc "error") then
    return "Error: " ++ jsDisplay (jget (jget oc "error") "description")
  let result := jindex (jget oc "result") 0
  if !(truthyOpt result) then
    return "Ticker " ++ ticker ++ " not found."
  match jsOr (jget result "expirationDates") (.jarr []) with
  | .jarr ts => do
    let entries ← mapExpirations ts
    return serializeJ (.jarr entries)
  | _ => .error "TypeError: expirationDates.map is not a function"

/-- `getOptionExpirationDates`. -/
def getOptionExpirationDates (ticker : String) (ev : FetchEvent) : String :=
  runTool (toolPipeline ev (expirationsBody ticker))

/-! ## getOptionChain (lines 315-333) -/

/-- Post-parse body of `getOptionChain` (the expiration-date argument
only enters the URL). -/
def optionChainBody (ticker : String) (expirationDate : String) (side : OptionSide)
    (data : JVal) : Except String String := do
  let oc := jget (some data) "optionChain"
  if truthyOpt (jget oc "error") then
    return "Error: " ++ jsDisplay (jget (jget oc "error") "description")
  let result := jindex (jget oc "result") 0
  if !(truthyOpt result) then
    return "Ticker " ++ ticker ++ " not found."
  let options := jindex (jget result "options") 0
  if !(truthyOpt options) then
    return "No options for " ++ expirationDate ++ ". Use get_option_expiration_dates first."
  return stringifyTop
    (match side with
     | .calls => jget options "calls"
     | .puts => jget options "puts")

/-- `getOptionChain`. -/
def getOptionChain (ticker : String) (expirationDate : String) (side : OptionSide)
    (ev : FetchEvent) : String :=
  runTool (toolPipeline ev (optionChainBody ticker expirationDate side))

/-! ## getRecommendations (lines 335-371) -/

/-- Cutoff of line 351:
`Math.floor((Date.now() - monthsBack * 30 * 24 * 60 * 60 * 1000) / 1000)`. -/
def cutoffOf (nowMs : Int) (monthsBack : Rat) : Int :=
  Int.fdiv (nowMs * monthsBack.den - monthsBack.num * 2592000000) (1000 * monthsBack.den)

/-- Filter of line 354: `item.epochGradeDate && item.epochGradeDate >=
cutoffTs` (numeric grade dates; JavaScript would coerce other types,
which no claim exercises). -/
def keepRec (cutoff : Int) (item : JVal) : Bool :=
  match jget (some item) "epochGradeDate" with
  | some (.jnum q) => !(q == 0) && decide (cutoff * (q.den : Int) ≤ q.num)
  | _ => false

/-- Sort key `item.epochGradeDate || 0`. -/
def epochKey (item : JVal) : Rat :=
  match jget (some item) "epochGradeDate" with
  | some (.jnum q) => if q == 0 then 0 else q
  | _ => 0

/-- Sort order of line 355, comparator `(b, a) => b.key - a.key`:
`a` may stay before `b` exactly when `b`'s key is at most `a`'s
(descending).  The sort is stable, modelled by `List.insertionSort`
(unique stable sorted permutation for a total preorder). -/
def recOrder (a b : JVal) : Prop :=
  epochKey b ≤ epochKey a

instance : DecidableRel recOrder :=
  fun a b => inferInstanceAs (Decidable (epochKey b ≤ epochKey a))

instance : IsTotal JVal recOrder :=
  ⟨fun a b => le_total (epochKey b) (epochKey a)⟩

instance : IsTrans JVal recOrder :=
  ⟨fun _ _ _ hab hbc => le_trans hbc hab⟩

/-- Dedup-by-firm of lines 357-362: keep an item only when its `firm`
value was not seen before (`SameValueZero` comparison). -/
def dedupByFirm : List JVal → List (Option JVal) → List JVal
  | [], _ => []
  | x :: xs, seen =>
    if seen.any (fun s => jeqOpt s (jget (some x) "firm")) then dedupByFirm xs seen
    else x :: dedupByFirm xs (jget (some x) "firm" :: seen)

/-- Filter, descending stable sort, and dedup of the
upgrade/downgrade history. -/
def upgradePipeline (cutoff : Int) (history : List JVal) : List JVal :=
  dedupByFirm (List.insertionSort recOrder (history.filter (keepRec cutoff))) []

/-- Spread step of lines 364-367: `{...item, gradeDate: <iso-or-null>}`.
Only items that passed `keepRec` reach this map, so the grade date is a
non-zero number here. -/
def addGradeDate (item : JVal) : JVal :=
  let gd := match jget (some item) "epochGradeDate" with
    | some (.jnum q) =>
      if q == 0 then JVal.jnull else JVal.jstr (toISOString (epochMs q))
    | _ => JVal.jnull
  .jobj (setField (jsOwnEntries item) "gradeDate" gd)

/-- Post-parse body of `getRecommendations`. -/
def recommendationsBody (ticker : String) (rt : RecommendationType) (monthsBack : Rat)
    (nowMs : Int) (data : JVal) : Except String String := do
  let qs := jget (some data) "quoteSummary"
  if truthyOpt (jget qs "error") then
    return "Error: " ++ jsDisplay (jget (jget qs "error") "description")
  let result := jindex (jget qs "result") 0
  if !(truthyOpt result) then
    return "Ticker " ++ ticker ++ " not found."
  match rt with
  | .recommendations =>
    return serializeJ (jsOr (jget (jget result "recommendationTrend") "trend") (.jarr []))
  | .upgrades_downgrades =>
    match jsOr (jget (jget result "upgradeDowngradeHistory") "history") (.jarr []) with
    | .jarr history =>
      return serializeJ (.jarr ((upgradePipeline (cutoffOf nowMs monthsBack) history).map
        addGradeDate))
    | _ => .error "TypeError: history.filter is not a function"

/-- `getRecommendations`; `nowMs` stands for `Date.now()`. -/
def getRecommendations (ticker : String) (rt : RecommendationType) (monthsBack : Rat)
    (nowMs : Int) (ev : FetchEvent) : String :=
  runTool (toolPipeline ev (recommendationsBody ticker rt monthsBack nowMs))

/-! ## Helper lemmas about the credential cache -/

/-- A successful `crumbStep` caches exactly the returned non-empty pair
and sets the expiry strictly beyond `now`. -/
theorem crumbStep_success {now : Int} {net : CrumbNet} {cookies : String} {calls : Nat}
    {st : CacheState} {p : AuthPair}
    (h : (crumbStep now net cookies calls st).auth = some p) :
    (crumbStep now net cookies calls st).state.cachedCrumb = some p.crumb ∧
    (crumbStep now net cookies calls st).state.cachedCookie = some p.cookie ∧
    p.crumb ≠ "" ∧ p.cookie ≠ "" ∧
    now < (crumbStep now net cookies calls st).state.cacheExpiry := by
  unfold crumbStep at h ⊢
  split_ifs at h ⊢ with h1 h2 h3 h4
  simp only [Option.some.injEq] at h
  subst h
  refine ⟨rfl, rfl, ?_, ?_, by show now < now + 1800000; omega⟩
  · intro he
    exact h4 (by simp_all)
  · intro he
    exact h1 (by simp_all)

/-- A successful `getCrumb` call leaves the cache holding exactly the
returned non-empty pair with an expiry strictly beyond `now`. -/
theorem getCrumb_success {now : Int} {net : CrumbNet} {st : CacheState} {p : AuthPair}
    (h : (getCrumb now net st).auth = some p) :
    (getCrumb now net st).state.cachedCrumb = some p.crumb ∧
    (getCrumb now net st).state.cachedCookie = some p.cookie ∧
    p.crumb ≠ "" ∧ p.cookie ≠ "" ∧
    now < (getCrumb now net st).state.cacheExpiry := by
  obtain ⟨ocr, oco, exp⟩ := st
  unfold getCrumb at h ⊢
  split_ifs at h ⊢ with h1 h2 h3 h4
  any_goals exact crumbStep_success h
  unfold hitGuard at h1
  simp only [Bool.and_eq_true, decide_eq_true_eq] at h1
  obtain ⟨⟨ha, hb⟩, hc⟩ := h1
  cases ocr with
  | none => simp [truthyS] at ha
  | some s =>
    cases oco with
    | none => simp [truthyS] at hb
    | some t =>
      simp only [Option.getD_some, Option.some.injEq] at h
      subst h
      refine ⟨rfl, rfl, ?_, ?_, hc⟩
      · simpa [truthyS] using ha
      · simpa [truthyS] using hb

/-- On a cache hit (non-empty cached strings, clock strictly before the
expiry) `getCrumb` returns the cached pair, changes nothing, and makes
no network request. -/
theorem getCrumb_hit {now : Int} {net : CrumbNet} {st : CacheState} {s t : String}
    (hcr : st.cachedCrumb = some s) (hco : st.cachedCookie = some t)
    (hs : s ≠ "") (ht : t ≠ "") (hexp : now < st.cacheExpiry) :
    getCrumb now net st = ⟨some ⟨s, t⟩, st, 0⟩ := by
  have hg : hitGuard st now = true := by
    simp [hitGuard, hcr, hco, truthyS, hs, ht, hexp]
  simp [getCrumb, hg, hcr, hco]

/-- A successful `getCookieAndCrumb` call leaves the cache holding
exactly the returned non-empty pair with an expiry strictly beyond
`now`. -/
theorem getCookieAndCrumb_success {now : Int} {net : P1Net} {st : CacheState} {p : AuthPair}
    (h : (getCookieAndCrumb now net st).outcome = .ok p) :
    (getCookieAndCrumb now net st).state.cachedCrumb = some p.crumb ∧
    (getCookieAndCrumb now net st).state.cachedCookie = some p.cookie ∧
    p.crumb ≠ "" ∧ p.cookie ≠ "" ∧
    now < (getCookieAndCrumb now net st).state.cacheExpiry := by
  obtain ⟨ocr, oco, exp⟩ := st
  unfold getCookieAndCrumb at h ⊢
  by_cases hg : hitGuard ⟨ocr, oco, exp⟩ now = true
  · rw [if_pos hg] at h ⊢
    unfold hitGuard at hg
    simp only [Bool.and_eq_true, decide_eq_true_eq] at hg
    obtain ⟨⟨ha, hb⟩, hc⟩ := hg
    cases ocr with
    | none => simp [truthyS] at ha
    | some s =>
      cases oco with
      | none => simp [truthyS] at hb
      | some t =>
        simp only [Option.getD_some, Except.ok.injEq] at h
        subst h
        refine ⟨rfl, rfl, ?_, ?_, hc⟩
        · simpa [truthyS] using ha
        · simpa [truthyS] using hb
  · rw [if_neg hg] at h ⊢
    cases hth : net.homeThrow with
    | some d => simp [hth] at h
    | none =>
      simp only [hth] at h ⊢
      by_cases h1 : (joinCookiesNF (net.homeSetCookie.getD "") == "") = true
      · rw [if_pos h1] at h
        simp at h
      · rw [if_neg h1] at h ⊢
        cases hct : net.crumbThrow with
        | some d => simp [hct] at h
        | none =>
          simp only [hct] at h ⊢
          by_cases h3 : (net.crumbBody == "" || containsSub net.crumbBody "error") = true
          · rw [if_pos h3] at h
            simp at h
          · rw [if_neg h3] at h ⊢
            simp only [Except.ok.injEq] at h
            subst h
            refine ⟨rfl, rfl, ?_, ?_, by show now < now + 1800000; omega⟩
            · intro he
              exact h3 (by simp_all)
            · intro he
              exact h1 (by simp_all)

/-- On a cache hit `getCookieAndCrumb` returns the cached pair, changes
nothing, and makes no network request. -/
theorem getCookieAndCrumb_hit {now : Int} {net : P1Net} {st : CacheState} {s t : String}
    (hcr : st.cachedCrumb = some s) (hco : st.cachedCookie = some t)
    (hs : s ≠ "") (ht : t ≠ "") (hexp : now < st.cacheExpiry) :
    getCookieAndCrumb now net st = ⟨.ok ⟨s, t⟩, st, 0⟩ := by
  have hg : hitGuard st now = true := by
    simp [hitGuard, hcr, hco, truthyS, hs, ht, hexp]
  simp [getCookieAndCrumb, hg, hcr, hco]

/-- Decidable equality for exception-carrying results, used only to
evaluate the model on concrete inputs. -/
instance {α β : Type} [DecidableEq α] [DecidableEq β] : DecidableEq (Except α β) := by
  intro a b
  cases a <;> cases b <;> first
    | exact isFalse (by intro hx; exact Except.noConfusion hx)
    | exact decidable_of_iff _ (by constructor <;> (intro hx; first | exact congrArg _ hx | (cases hx; rfl)))

/-! ## Concrete oracles and states used by the witnesses -/

/-- The initial cache state (`null`, `null`, `0`). -/
def st0 : CacheState := ⟨none, none, 0⟩

/-- A network oracle for a fully successful `getCrumb` handshake whose
`set-cookie` header exercises the split/trim/filter cookie assembly. -/
def netW : CrumbNet :=
  ⟨false, some "A=1; Path=/, B=2", false, none, false, true, 200, "crumbX"⟩

/-- A hostile oracle on which every request would fail; used to show
that cache hits consult no network. -/
def netHostile : CrumbNet := ⟨true, none, true, none, true, false, 500, "error"⟩

/-- Hostile counterpart for the duplicate implementation. -/
def netHostileP1 : P1Net := ⟨some "Error: boom", none, some "Error: boom", false, 500, "error"⟩

/-- A successful oracle for the duplicate implementation. -/
def netWP1 : P1Net := ⟨none, some "A=1; Path=/, B=2", none, true, 200, "crumbX"⟩

example : (getCrumb 5 netW st0).auth = some ⟨"crumbX", "A=1; B=2"⟩ := by decide
example : (getCrumb 5 netW st0).state = ⟨some "crumbX", some "A=1; B=2", 1800005⟩ := by decide
example : (getCrumb 5 netW st0).nCalls = 2 := by decide
example : (getCookieAndCrumb 5 netWP1 st0).outcome = .ok ⟨"crumbX", "A=1; B=2"⟩ := by decide

/-! ## Claims -/

/-- Claim C1 (cache freshness): whenever a call to the
credential-acquisition routine returns a pair successfully, any second
call made while the clock is strictly before the cached expiry performs
no network request, leaves the cache unchanged, and returns exactly the
pair the first call returned — for `getCrumb` and for
`getCookieAndCrumb` alike. -/
theorem claim_C1_cache_freshness :
    (∀ (now1 : Int) (net1 : CrumbNet) (st : CacheState) (now2 : Int) (net2 : CrumbNet)
       (p : AuthPair),
       (getCrumb now1 net1 st).auth = some p →
       now2 < (getCrumb now1 net1 st).state.cacheExpiry →
       getCrumb now2 net2 (getCrumb now1 net1 st).state =
         ⟨some p, (getCrumb now1 net1 st).state, 0⟩) ∧
    (∀ (now1 : Int) (net1 : P1Net) (st : CacheState) (now2 : Int) (net2 : P1Net)
       (p : AuthPair),
       (getCookieAndCrumb now1 net1 st).outcome = .ok p →
       now2 < (getCookieAndCrumb now1 net1 st).state.cacheExpiry →
       getCookieAndCrumb now2 net2 (getCookieAndCrumb now1 net1 st).state =
         ⟨.ok p, (getCookieAndCrumb now1 net1 st).state, 0⟩) := by
  constructor
  · intro now1 net1 st now2 net2 p h hexp
    obtain ⟨h1, h2, h3, h4, _⟩ := getCrumb_success h
    exact getCrumb_hit h1 h2 h3 h4 hexp
  · intro now1 net1 st now2 net2 p h hexp
    obtain ⟨h1, h2, h3, h4, _⟩ := getCookieAndCrumb_success h
    exact getCookieAndCrumb_hit h1 h2 h3 h4 hexp

/-- Witness for C1: a concrete first handshake at time 5 caches the
pair, and a second call at time 10 against a hostile network returns
the identical pair with no state change and zero requests. -/
theorem claim_C1_cache_freshness_witness :
    getCrumb 10 netHostile (getCrumb 5 netW st0).state =
      ⟨some ⟨"crumbX", "A=1; B=2"⟩, (getCrumb 5 netW st0).state, 0⟩ ∧
    getCookieAndCrumb 10 netHostileP1 (getCookieAndCrumb 5 netWP1 st0).state =
      ⟨.ok ⟨"crumbX", "A=1; B=2"⟩, (getCookieAndCrumb 5 netWP1 st0).state, 0⟩ :=
  ⟨claim_C1_cache_freshness.1 5 netW st0 10 netHostile ⟨"crumbX", "A=1; B=2"⟩
     (by decide) (by decide),
   claim_C1_cache_freshness.2 5 netWP1 st0 10 netHostileP1 ⟨"crumbX", "A=1; B=2"⟩
     (by decide) (by decide)⟩

/-- Claim C5 (never-expired invariant): whenever the
credential-acquisition routine returns a pair as valid, the cached
expiry is strictly after the clock value of that call — on the
cache-hit path and after a fresh handshake alike, and in both
implementations. -/
theorem claim_C5_never_expired :
    (∀ (now : Int) (net : CrumbNet) (st : CacheState) (p : AuthPair),
       (getCrumb now net st).auth = some p →
       now < (getCrumb now net st).state.cacheExpiry) ∧
    (∀ (now : Int) (net : P1Net) (st : CacheState) (p : AuthPair),
       (getCookieAndCrumb now net st).outcome = .ok p →
       now < (getCookieAndCrumb now net st).state.cacheExpiry) :=
  ⟨fun _ _ _ _ h => (getCrumb_success h).2.2.2.2,
   fun _ _ _ _ h => (getCookieAndCrumb_success h).2.2.2.2⟩

/-- Witness for C5: the fresh handshake at time 5 and a later cache
hit at time 99 both leave the clock strictly before the expiry. -/
theorem claim_C5_never_expired_witness :
    (5 : Int) < (getCrumb 5 netW st0).state.cacheExpiry ∧
    (99 : Int) < (getCrumb 99 netHostile (getCrumb 5 netW st0).state).state.cacheExpiry ∧
    (5 : Int) < (getCookieAndCrumb 5 netWP1 st0).state.cacheExpiry :=
  ⟨claim_C5_never_expired.1 5 netW st0 ⟨"crumbX", "A=1; B=2"⟩ (by decide),
   claim_C5_never_expired.1 99 netHostile (getCrumb 5 netW st0).state
     ⟨"crumbX", "A=1; B=2"⟩ (by decide),
   claim_C5_never_expired.2 5 netWP1 st0 ⟨"crumbX", "A=1; B=2"⟩ (by decide)⟩

/-- Oracle on which neither implementation can obtain any cookie: the
primary `set-cookie` header is absent and the fallback header consists
only of attribute-free separators that the assembly trims away. -/
def netNoCookie : CrumbNet := ⟨false, none, false, some "; ;", false, true, 200, "crumbX"⟩

/-- Oracle for the duplicate implementation with no cookie header. -/
def netNoCookieP1 : P1Net := ⟨none, none, none, true, 200, "crumbX"⟩

/-- Counterexample to claim C3 as stated: on a refresh in which the
cookie source yields no cookie, `getCookieAndCrumb` does not return a
no-credentials value — it raises (`Except.error` models the thrown
`Error`), so the claim is false of the duplicate credential routine it
quantifies over. -/
theorem claim_C3_counterexample :
    (getCookieAndCrumb 0 netNoCookieP1 st0).outcome =
      Except.error "Error: Failed to get Yahoo cookie" ∧
    (getCookieAndCrumb 0 netNoCookieP1 st0).state = st0 := by
  decide

/-- Claim C3 as amended: when no cookie can be extracted from any
source, `getCrumb` signals `AuthUnavailable` by returning the
no-credentials value `null` with the cache untouched (no exception),
after exactly the two cookie requests; `getCookieAndCrumb`, by
contrast, signals the same condition by throwing an `Error` after its
single cookie request, likewise leaving the cache untouched. -/
theorem claim_C3_amended :
    (∀ (now : Int) (net : CrumbNet) (st : CacheState),
       hitGuard st now = false → net.fcThrows = false → net.financeThrows = false →
       cookiesOfHeader net.fcSetCookie = "" → cookiesOfHeader net.financeSetCookie = "" →
       getCrumb now net st = ⟨none, st, 2⟩) ∧
    (∀ (now : Int) (net : P1Net) (st : CacheState),
       hitGuard st now = false → net.homeThrow = none →
       joinCookiesNF (net.homeSetCookie.getD "") = "" →
       getCookieAndCrumb now net st =
         ⟨.error "Error: Failed to get Yahoo cookie", st, 1⟩) := by
  constructor
  · intro now net st h1 h2 h3 h4 h5
    simp [getCrumb, crumbStep, h1, h2, h3, h4, h5]
  · intro now net st h1 h2 h3
    simp [getCookieAndCrumb, h1, h2, h3]

/-- Witness for the amended C3 at concrete inputs (the `getCrumb`
fallback header `"; ;"` is trimmed to nothing by the cookie
assembly). -/
theorem claim_C3_amended_witness :
    getCrumb 0 netNoCookie st0 = ⟨none, st0, 2⟩ ∧
    getCookieAndCrumb 0 netNoCookieP1 st0 =
      ⟨.error "Error: Failed to get Yahoo cookie", st0, 1⟩ :=
  ⟨claim_C3_amended.1 0 netNoCookie st0 (by decide) (by decide) (by decide)
     (by decide) (by decide),
   claim_C3_amended.2 0 netNoCookieP1 st0 (by decide) (by decide) (by decide)⟩

/-- Oracle refuting claim C2: the crumb endpoint answers with an
unsuccessful HTTP status and a body containing `<`, yet without the
substring `error`. -/
def netBadCrumbP1 : P1Net := ⟨none, some "A=1", none, false, 500, "<p>ok"⟩

/-- Counterexample to claim C2 as stated: the crumb response has a
non-success HTTP status and its body contains `<`, yet
`getCookieAndCrumb` succeeds with that body as the crumb and caches it,
because the duplicate implementation checks neither the status nor the
`<` heuristic. -/
theorem claim_C2_counterexample :
    containsSub "<p>ok" "<" = true ∧
    netBadCrumbP1.crumbOk = false ∧
    (getCookieAndCrumb 0 netBadCrumbP1 st0).outcome = .ok ⟨"<p>ok", "A=1"⟩ ∧
    (getCookieAndCrumb 0 netBadCrumbP1 st0).state.cachedCrumb = some "<p>ok" := by
  decide

/-- Claim C2 as amended: `getCrumb` applies the full validation
heuristic — if the status is unsuccessful, or the body is empty,
contains `<`, or contains `error`, it fails with no caching, and
otherwise succeeds with the body verbatim as the crumb.
`getCookieAndCrumb` checks only emptiness and the `error` substring
(ignoring HTTP status and `<`), fails by throwing, and otherwise
likewise uses the body verbatim.  The first conjunct ties the
`getCrumb` crumb stage to the routine itself. -/
theorem claim_C2_amended :
    (∀ (now : Int) (net : CrumbNet) (st : CacheState),
       hitGuard st now = false → net.fcThrows = false →
       ¬(cookiesOfHeader net.fcSetCookie = "") →
       getCrumb now net st = crumbStep now net (cookiesOfHeader net.fcSetCookie) 1 st) ∧
    (∀ (now : Int) (net : CrumbNet) (cookies : String) (calls : Nat) (st : CacheState),
       ¬(cookies = "") → net.crumbThrows = false →
       ((net.crumbOk = false ∨ net.crumbBody = "" ∨ containsSub net.crumbBody "<" = true ∨
          containsSub net.crumbBody "error" = true) →
         crumbStep now net cookies calls st = ⟨none, st, calls + 1⟩) ∧
       (net.crumbOk = true → ¬(net.crumbBody = "") → containsSub net.crumbBody "<" = false →
         containsSub net.crumbBody "error" = false →
         crumbStep now net cookies calls st =
           ⟨some ⟨net.crumbBody, cookies⟩,
            ⟨some net.crumbBody, some cookies, now + 1800000⟩, calls + 1⟩)) ∧
    (∀ (now : Int) (net : P1Net) (st : CacheState),
       hitGuard st now = false → net.homeThrow = none → net.crumbThrow = none →
       ¬(joinCookiesNF (net.homeSetCookie.getD "") = "") →
       ((net.crumbBody = "" ∨ containsSub net.crumbBody "error" = true) →
         getCookieAndCrumb now net st = ⟨.error "Error: Failed to get Yahoo crumb", st, 2⟩) ∧
       (¬(net.crumbBody = "") → containsSub net.crumbBody "error" = false →
         getCookieAndCrumb now net st =
           ⟨.ok ⟨net.crumbBody, joinCookiesNF (net.homeSetCookie.getD "")⟩,
            ⟨some net.crumbBody, some (joinCookiesNF (net.homeSetCookie.getD "")),
             now + 1800000⟩, 2⟩)) := by
  refine ⟨?_, ?_, ?_⟩
  · intro now net st h1 h2 h3
    simp [getCrumb, h1, h2, h3]
  · intro now net cookies calls st h1 h2
    constructor
    · intro hbad
      rcases hbad with hb | hb | hb | hb <;> simp [crumbStep, h1, h2, hb]
    · intro hok hne hlt herr
      simp [crumbStep, h1, h2, hok, hne, hlt, herr]
  · intro now net st h1 h2 h3 h4
    constructor
    · intro hbad
      rcases hbad with hb | hb <;> simp [getCookieAndCrumb, h1, h2, h3, h4, hb]
    · intro hne herr
      simp [getCookieAndCrumb, h1, h2, h3, h4, hne, herr]

/-- Witness for the amended C2: concrete failing bodies (empty, HTML,
`error`-bearing, unsuccessful status) and a concrete success for
`getCrumb`; concrete throw and success for `getCookieAndCrumb`. -/
theorem claim_C2_amended_witness :
    crumbStep 0 ⟨false, some "A=1", false, none, false, true, 200, "<html>error</html>"⟩ "A=1" 1 st0 =
      ⟨none, st0, 2⟩ ∧
    crumbStep 0 ⟨false, some "A=1", false, none, false, true, 200, "crumbX"⟩ "A=1" 1 st0 =
      ⟨some ⟨"crumbX", "A=1"⟩, ⟨some "crumbX", some "A=1", 1800000⟩, 2⟩ ∧
    getCookieAndCrumb 0 ⟨none, some "A=1", none, true, 200, "some error occurred"⟩ st0 =
      ⟨.error "Error: Failed to get Yahoo crumb", st0, 2⟩ :=
  ⟨(claim_C2_amended.2.1 0 ⟨false, some "A=1", false, none, false, true, 200, "<html>error</html>"⟩
      "A=1" 1 st0 (by decide) (by decide)).1 (by decide),
   (claim_C2_amended.2.1 0 ⟨false, some "A=1", false, none, false, true, 200, "crumbX"⟩
      "A=1" 1 st0 (by decide) (by decide)).2 (by decide) (by decide) (by decide) (by decide),
   (claim_C2_amended.2.2 0 ⟨none, some "A=1", none, true, 200, "some error occurred"⟩ st0
      (by decide) (by decide) (by decide) (by decide)).1 (by decide)⟩

/-- Concatenation regrouping for the crumb suffix. -/
theorem crumb_suffix_amp (url e : String) :
    url ++ "&" ++ "crumb=" ++ e = url ++ "&crumb=" ++ e := by
  have h : ("&" : String) ++ "crumb=" = "&crumb=" := rfl
  rw [String.append_assoc url "&" "crumb=", h]

/-- Concatenation regrouping for the crumb suffix, question-mark form. -/
theorem crumb_suffix_q (url e : String) :
    url ++ "?" ++ "crumb=" ++ e = url ++ "?crumb=" ++ e := by
  have h : ("?" : String) ++ "crumb=" = "?crumb=" := rfl
  rw [String.append_assoc url "?" "crumb=", h]

/-- Claim C4 (authenticated URL construction): whenever credential
acquisition succeeds with crumb `r` and cookie `c`, `fetchYahoo(url,
true)` requests `url + "&crumb=" + urlEncode(r)` if `url` contains
`?` and `url + "?crumb=" + urlEncode(r)` otherwise, with header
`Cookie: c` — in both implementations — and the crumb `c&d` is encoded
as `c%26d`. -/
theorem claim_C4_url_construction :
    (∀ (url : String) (now : Int) (net : CrumbNet) (st : CacheState) (p : AuthPair),
       (getCrumb now net st).auth = some p →
       (containsSub url "?" = true →
         fetchYahooRequest url true now net st =
           ⟨url ++ "&crumb=" ++ encodeURIComponent p.crumb, some p.cookie⟩) ∧
       (containsSub url "?" = false →
         fetchYahooRequest url true now net st =
           ⟨url ++ "?crumb=" ++ encodeURIComponent p.crumb, some p.cookie⟩)) ∧
    (∀ (url : String) (now : Int) (net : P1Net) (st : CacheState) (p : AuthPair),
       (getCookieAndCrumb now net st).outcome = .ok p →
       (containsSub url "?" = true →
         fetchYahooRequestP1 url true now net st =
           .ok ⟨url ++ "&crumb=" ++ encodeURIComponent p.crumb, some p.cookie⟩) ∧
       (containsSub url "?" = false →
         fetchYahooRequestP1 url true now net st =
           .ok ⟨url ++ "?crumb=" ++ encodeURIComponent p.crumb, some p.cookie⟩)) ∧
    encodeURIComponent "c&d" = "c%26d" := by
  refine ⟨?_, ?_, by decide⟩
  · intro url now net st p h
    constructor <;> intro hc <;>
      simp [fetchYahooRequest, h, buildRequest, hc, ← crumb_suffix_amp, ← crumb_suffix_q]
  · intro url now net st p h
    constructor <;> intro hc <;>
      simp [fetchYahooRequestP1, h, buildRequestP1, hc, ← crumb_suffix_amp, ← crumb_suffix_q]

/-- Witness for C4: with the pair `(crumb, cookie) = ("c&d", "a=1;
b=2")` already cached, both URL shapes produce the specified request. -/
theorem claim_C4_url_construction_witness :
    fetchYahooRequest "https://x/y?z=1" true 0 netHostile ⟨some "c&d", some "a=1; b=2", 9⟩ =
      ⟨"https://x/y?z=1&crumb=c%26d", some "a=1; b=2"⟩ ∧
    fetchYahooRequest "https://x/y" true 0 netHostile ⟨some "c&d", some "a=1; b=2", 9⟩ =
      ⟨"https://x/y?crumb=c%26d", some "a=1; b=2"⟩ := by
  constructor
  · have h := ((claim_C4_url_construction.1 "https://x/y?z=1" 0 netHostile
      ⟨some "c&d", some "a=1; b=2", 9⟩ ⟨"c&d", "a=1; b=2"⟩ (by decide)).1 (by decide))
    exact h.trans (by decide)
  · have h := ((claim_C4_url_construction.1 "https://x/y" 0 netHostile
      ⟨some "c&d", some "a=1; b=2", 9⟩ ⟨"c&d", "a=1; b=2"⟩ (by decide)).2 (by decide))
    exact h.trans (by decide)

/-! ## Lemmas about field lists -/

/-- Key membership distributes over append. -/
theorem hasKeyF_append (a b : List (String × JVal)) (k : String) :
    hasKeyF (a ++ b) k = (hasKeyF a k || hasKeyF b k) := by
  simp [hasKeyF]

/-- Writing a fresh key appends the binding. -/
theorem setField_fresh (fs : List (String × JVal)) (k : String) (v : JVal)
    (h : hasKeyF fs k = false) : setField fs k v = fs ++ [(k, v)] := by
  induction fs with
  | nil => rfl
  | cons kv rest ih =>
    obtain ⟨k0, v0⟩ := kv
    simp only [hasKeyF, List.any_cons, Bool.or_eq_false_iff, decide_eq_false_iff_not] at h
    obtain ⟨h1, h2⟩ := h
    simp [setField, h1, ih h2]

/-- The flattening fold of `getFinancialStatement`, applied to fields
that trigger neither rewrite branch, appends them unchanged. -/
theorem flattenFold_fixed (fs : List (String × JVal)) (acc : List (String × JVal))
    (hdisj : ∀ kv ∈ fs, hasKeyF acc kv.1 = false)
    (hnd : (fs.map Prod.fst).Nodup)
    (hfix : ∀ kv ∈ fs, hasOwnObj kv.2 "raw" = false ∧
      (kv.1 = "endDate" → hasOwnObj kv.2 "fmt" = false)) :
    fs.foldl
      (fun obj kv =>
        if hasOwnObj kv.2 "raw" then
          setField obj kv.1 ((kv.2.get? "raw").getD .jnull)
        else if kv.1 = "endDate" && hasOwnObj kv.2 "fmt" then
          setField obj "date" ((kv.2.get? "fmt").getD .jnull)
        else
          setField obj kv.1 kv.2)
      acc = acc ++ fs := by
  induction fs generalizing acc with
  | nil => simp
  | cons kv rest ih =>
    obtain ⟨k, v⟩ := kv
    obtain ⟨hraw, hfmt⟩ := hfix (k, v) (by simp)
    have hstep :
        (if hasOwnObj v "raw" then setField acc k ((v.get? "raw").getD .jnull)
         else if k = "endDate" && hasOwnObj v "fmt" then
           setField acc "date" ((v.get? "fmt").getD .jnull)
         else setField acc k v) = acc ++ [(k, v)] := by
      rw [if_neg (by simp [hraw]), if_neg (by
        intro hc
        simp only [Bool.and_eq_true, decide_eq_true_eq] at hc
        exact absurd hc.2 (by simp [hfmt hc.1]))]
      exact setField_fresh acc k v (hdisj (k, v) (by simp))
    simp only [List.foldl_cons, hstep]
    rw [ih (acc ++ [(k, v)])
      (fun kv hkv => by
        rw [hasKeyF_append]
        have h1 := hdisj kv (by simp [hkv])
        have h2 : hasKeyF [(k, v)] kv.1 = false := by
          simp only [List.map_cons, List.nodup_cons] at hnd
          have : kv.1 ∈ rest.map Prod.fst := List.mem_map_of_mem Prod.fst hkv
          simp [hasKeyF]
          intro he
          exact absurd (he ▸ this) hnd.1
        simp [h1, h2])
      (by simp only [List.map_cons, List.nodup_cons] at hnd; exact hnd.2)
      (fun kv hkv => hfix kv (by simp [hkv]))]
    simp

/-- Claim C9 (flattening idempotence): a statement object already in
flattened form — no field value is an object containing the key `raw`,
and no `endDate` field wraps an object with key `fmt` — is returned
unchanged by the per-statement flattening transform of
`getFinancialStatement`. -/
theorem claim_C9_flatten_idempotent (fs : List (String × JVal))
    (hnd : (fs.map Prod.fst).Nodup)
    (hfix : ∀ kv ∈ fs, hasOwnObj kv.2 "raw" = false ∧
      (kv.1 = "endDate" → hasOwnObj kv.2 "fmt" = false)) :
    flattenStmtE (.jobj fs) = .ok (.jobj fs) := by
  exact congrArg (fun l => Except.ok (JVal.jobj l))
    (flattenFold_fixed fs [] (fun kv _ => rfl) hnd hfix)

/-- Witness for C9: a concrete already-flattened statement (with a
plain `date` field and scalar values) maps to itself. -/
theorem claim_C9_flatten_idempotent_witness :
    flattenStmtE (.jobj [("date", .jstr "2024-06-30"), ("totalRevenue", .jnum 5),
      ("endDate", .jstr "2024-06-30"), ("note", .jnull)]) =
      .ok (.jobj [("date", .jstr "2024-06-30"), ("totalRevenue", .jnum 5),
        ("endDate", .jstr "2024-06-30"), ("note", .jnull)]) :=
  claim_C9_flatten_idempotent _ (by decide)
    (by
      intro kv hkv
      fin_cases hkv <;> simp [hasOwnObj])

/-- Lookup of a key absent from a field list. -/
theorem lookupField_eq_none (fs : List (String × JVal)) (key : String)
    (h : hasKeyF fs key = false) : lookupField fs key = none := by
  induction fs with
  | nil => rfl
  | cons kv rest ih =>
    obtain ⟨k0, v0⟩ := kv
    simp only [hasKeyF, List.any_cons, Bool.or_eq_false_iff, decide_eq_false_iff_not] at h
    simp [lookupField, h.1, ih h.2]

/-- Lookup after a property write. -/
theorem lookupField_setField (t : List (String × JVal)) (k key : String) (v : JVal) :
    lookupField (setField t k v) key =
      if k = key then some v else lookupField t key := by
  induction t with
  | nil => simp [setField, lookupField]
  | cons kv rest ih =>
    obtain ⟨k0, v0⟩ := kv
    by_cases h0 : k0 = k
    · subst h0
      simp only [setField, if_pos rfl, lookupField]
      split_ifs <;> simp_all [lookupField]
    · simp only [setField, if_neg h0, lookupField]
      split_ifs with h1 h2 <;> simp_all [lookupField]

/-- Lookup after `Object.assign` with a duplicate-free source: the
source wins on its own keys, the target answers elsewhere. -/
theorem lookupField_assignFields (tgt src : List (String × JVal)) (key : String)
    (hnd : (src.map Prod.fst).Nodup) :
    lookupField (assignFields tgt src) key =
      match lookupField src key with
      | some v => some v
      | none => lookupField tgt key := by
  induction src generalizing tgt with
  | nil => simp [assignFields, lookupField]
  | cons kv rest ih =>
    obtain ⟨k, v⟩ := kv
    simp only [List.map_cons, List.nodup_cons] at hnd
    have hstep : assignFields tgt ((k, v) :: rest) = assignFields (setField tgt k v) rest := rfl
    rw [hstep, ih (setField tgt k v) hnd.2]
    by_cases hk : k = key
    · subst hk
      have hrest : lookupField rest k = none :=
        lookupField_eq_none rest k (by
          simp [hasKeyF]
          intro a b hab hba
          exact absurd (hba ▸ List.mem_map_of_mem Prod.fst hab) hnd.1)
      simp [lookupField, hrest, lookupField_setField]
    · simp only [lookupField, if_neg hk]
      cases lookupField rest key with
      | some w => simp
      | none => simp [lookupField_setField, hk]

/-- Value a key receives from the latest module that defines it (later
modules take precedence). -/
def lastWins : List (String × JVal) → String → Option JVal
  | [], _ => none
  | m :: ms, key =>
    match lastWins ms key with
    | some v => some v
    | none => m.2.get? key

/-- Generalised merge lemma: folding `Object.assign` over object-valued
modules resolves each key to its latest definition, falling back to the
accumulator. -/
theorem mergeModules_foldl_lookup (modules : List (String × JVal)) (key : String)
    (hobj : ∀ kv ∈ modules, ∃ fs, kv.2 = JVal.jobj fs ∧ (fs.map Prod.fst).Nodup) :
    ∀ acc : List (String × JVal),
      lookupField
        (modules.foldl
          (fun info kv =>
            if kv.2.truthy && isTypeofObject kv.2 then assignFields info (jsOwnEntries kv.2)
            else info)
          acc) key =
        match lastWins modules key with
        | some v => some v
        | none => lookupField acc key := by
  induction modules with
  | nil => intro acc; simp [lastWins]
  | cons m ms ih =>
    intro acc
    obtain ⟨fs, hfs, hnd⟩ := hobj m (by simp)
    have hstep :
        (if m.2.truthy && isTypeofObject m.2 then assignFields acc (jsOwnEntries m.2)
         else acc) = assignFields acc fs := by
      rw [hfs]
      rfl
    simp only [List.foldl_cons, hstep]
    rw [ih (fun kv hkv => hobj kv (by simp [hkv])) (assignFields acc fs)]
    have hget : m.2.get? key = lookupField fs key := by rw [hfs]; rfl
    cases hl : lastWins ms key with
    | some v => simp [lastWins, hl]
    | none =>
      simp only [lastWins, hl, hget]
      rw [lookupField_assignFields acc fs key hnd]

/-- Claim C10 (stock-info merge is last-writer-wins): `getStockInfo`
merges object-valued modules in entry order, so a key defined by
several modules ends with the value of the one iterated last, while
modules whose value is not a (truthy) object contribute nothing; the
final conjunct evaluates the whole tool on a response whose
`quoteSummary.result[0]` holds the given modules. -/
theorem claim_C10_info_merge :
    (∀ (modules : List (String × JVal)) (key : String),
       (∀ kv ∈ modules, ∃ fs, kv.2 = JVal.jobj fs ∧ (fs.map Prod.fst).Nodup) →
       lookupField (mergeModules modules) key = lastWins modules key) ∧
    (∀ (pre post : List (String × JVal)) (k : String) (v : JVal),
       (v.truthy && isTypeofObject v) = false →
       mergeModules (pre ++ (k, v) :: post) = mergeModules (pre ++ post)) ∧
    (∀ (ticker : String) (modules : List (String × JVal)),
       getStockInfo ticker
         (.resp ⟨true, 200, "",
           .ok (.jobj [("quoteSummary", .jobj [("result", .jarr [.jobj modules])])])⟩) =
         serializeJ (.jobj (mergeModules modules))) := by
  refine ⟨?_, ?_, ?_⟩
  · intro modules key hobj
    have h := mergeModules_foldl_lookup modules key hobj []
    rw [mergeModules, h]
    cases lastWins modules key <;> simp [lookupField]
  · intro pre post k v hv
    unfold mergeModules
    rw [List.foldl_append, List.foldl_append, List.foldl_cons, if_neg (by simp [hv])]
  · intro ticker modules
    rfl

/-- Witness for C10: two modules both define `x`; the merged object
carries the second module's value, and a non-object module between
them is skipped. -/
theorem claim_C10_info_merge_witness :
    lookupField
      (mergeModules [("m1", .jobj [("a", .jnum 1), ("x", .jnum 10)]),
        ("m2", .jobj [("x", .jnum 20), ("b", .jnum 2)])]) "x" =
      lastWins [("m1", .jobj [("a", .jnum 1), ("x", .jnum 10)]),
        ("m2", .jobj [("x", .jnum 20), ("b", .jnum 2)])] "x" ∧
    mergeModules [("m1", .jobj [("a", .jnum 1)]), ("bad", .jnum 7), ("m2", .jobj [("b", .jnum 2)])] =
      mergeModules [("m1", .jobj [("a", .jnum 1)]), ("m2", .jobj [("b", .jnum 2)])] :=
  ⟨claim_C10_info_merge.1 _ "x"
     (by
       intro kv hkv
       fin_cases hkv
       · exact ⟨_, rfl, by decide⟩
       · exact ⟨_, rfl, by decide⟩),
   claim_C10_info_merge.2.1 [("m1", .jobj [("a", .jnum 1)])] [("m2", .jobj [("b", .jnum 2)])]
     "bad" (.jnum 7) (by decide)⟩

/-- A concrete chart response holding one dividend (epoch 100, amount
0.5) and one split (epoch 50, ratio 2/1), as in the spec's example. -/
def evDivSplit : FetchEvent :=
  .resp ⟨true, 200, "",
    .ok (.jobj [("chart", .jobj [("result", .jarr [.jobj [("events", .jobj
      [("dividends", .jobj [("100", .jobj [("date", .jnum 100), ("amount", .jnum (mkRat 1 2))])]),
       ("splits", .jobj [("50", .jobj [("date", .jnum 50), ("numerator", .jnum 2),
         ("denominator", .jnum 1)])])])]])])])⟩

/-- The integer-level division agrees with rational division. -/
theorem jsDivide_eq_div (a b : Rat) : jsDivide a b = a / b := by
  unfold jsDivide
  rw [Rat.div_def']
  split_ifs with h
  · have hna : (b.num.natAbs : Int) = -b.num := Int.ofNat_natAbs_of_nonpos (le_of_lt h)
    rw [Rat.mkRat_eq_divInt]
    push_cast [hna]
    rw [show (a.den : Int) * -b.num = -((a.den : Int) * b.num) by ring, Rat.divInt_neg, neg_neg]
  · have hna : (b.num.natAbs : Int) = b.num := Int.natAbs_of_nonneg (not_lt.mp h)
    rw [Rat.mkRat_eq_divInt]
    push_cast [hna]
    rfl

/-- Claim C7 (action merge-and-sort): `getStockActions` maps each
dividend event to a record with its amount and split ratio 0, each
split event to a record with dividend 0 and ratio
numerator/denominator, merges dividends before splits, and sorts the
merged list ascending by date (a permutation of the merged records,
pairwise ordered); on the spec's example the split record (ratio 2,
epoch 50) precedes the dividend record (amount 0.5, epoch 100). -/
theorem claim_C7_action_merge_sort :
    (∀ (divs splits : List JVal) (da sa : List StockAction),
       mapActions divAction divs = .ok da →
       mapActions splitAction splits = .ok sa →
       actionsPipeline divs splits = .ok (List.insertionSort actionOrder (da ++ sa)) ∧
       List.Pairwise (fun a b => a.dateMs ≤ b.dateMs)
         (List.insertionSort actionOrder (da ++ sa)) ∧
       (List.insertionSort actionOrder (da ++ sa)).Perm (da ++ sa)) ∧
    (∀ (div : JVal) (d : Rat),
       jget (some div) "date" = some (.jnum d) →
       divAction div = .ok ⟨epochMs d, jget (some div) "amount", .jnum 0⟩) ∧
    (∀ (split : JVal) (d n m : Rat),
       jget (some split) "date" = some (.jnum d) →
       jget (some split) "numerator" = some (.jnum n) →
       jget (some split) "denominator" = some (.jnum m) →
       (m == 0) = false →
       splitAction split = .ok ⟨epochMs d, some (.jnum 0), .jnum (n / m)⟩) ∧
    getStockActions "AAPL" evDivSplit =
      serializeActions
        [⟨50000, some (.jnum 0), .jnum 2⟩, ⟨100000, some (.jnum (mkRat 1 2)), .jnum 0⟩] := by
  refine ⟨?_, ?_, ?_, by decide⟩
  · intro divs splits da sa hda hsa
    refine ⟨?_, ?_, List.perm_insertionSort _ _⟩
    · unfold actionsPipeline
      rw [hda, hsa]
      rfl
    · exact List.sorted_insertionSort actionOrder (da ++ sa)
  · intro div d hd
    simp [divAction, hd]
  · intro split d n m hd hn hm hm0
    simp [splitAction, splitRatioVal, hd, hn, hm, hm0, jsDivide_eq_div]

/-- Witness for C7: the two mapped records of the example, sorted. -/
theorem claim_C7_action_merge_sort_witness :
    actionsPipeline
      [.jobj [("date", .jnum 100), ("amount", .jnum (mkRat 1 2))]]
      [.jobj [("date", .jnum 50), ("numerator", .jnum 2), ("denominator", .jnum 1)]] =
      .ok (List.insertionSort actionOrder
        ([⟨100000, some (.jnum (mkRat 1 2)), .jnum 0⟩] ++
         [⟨50000, some (.jnum 0), .jnum 2⟩])) ∧
    List.insertionSort actionOrder
      ([(⟨100000, some (.jnum (mkRat 1 2)), .jnum 0⟩ : StockAction)] ++
       [⟨50000, some (.jnum 0), .jnum 2⟩]) =
      [⟨50000, some (.jnum 0), .jnum 2⟩, ⟨100000, some (.jnum (mkRat 1 2)), .jnum 0⟩] :=
  ⟨(claim_C7_action_merge_sort.1
      [.jobj [("date", .jnum 100), ("amount", .jnum (mkRat 1 2))]]
      [.jobj [("date", .jnum 50), ("numerator", .jnum 2), ("denominator", .jnum 1)]]
      [⟨100000, some (.jnum (mkRat 1 2)), .jnum 0⟩]
      [⟨50000, some (.jnum 0), .jnum 2⟩]
      (by rfl) (by rfl)).1,
   by rfl⟩

/-! ## Lemmas about the upgrade/downgrade pipeline -/

/-- The dedup pass yields a sublist of its input. -/
theorem dedupByFirm_sublist : ∀ (l : List JVal) (seen : List (Option JVal)),
    List.Sublist (dedupByFirm l seen) l
  | [], _ => List.Sublist.refl []
  | x :: xs, seen => by
    unfold dedupByFirm
    split_ifs with h
    · exact (dedupByFirm_sublist xs seen).cons x
    · exact (dedupByFirm_sublist xs (jget (some x) "firm" :: seen)).cons₂ x

/-- No kept item carries a firm already recorded as seen. -/
theorem dedupByFirm_not_seen : ∀ (l : List JVal) (seen : List (Option JVal)) (x : JVal),
    x ∈ dedupByFirm l seen → ∀ s ∈ seen, jeqOpt s (jget (some x) "firm") = false
  | [], _, x, hx => by simp [dedupByFirm] at hx
  | y :: ys, seen, x, hx => by
    unfold dedupByFirm at hx
    split_ifs at hx with h
    · exact dedupByFirm_not_seen ys seen x hx
    · rcases List.mem_cons.mp hx with hx1 | hx2
      · subst hx1
        intro s hs
        by_contra hc
        exact h (List.any_eq_true.mpr ⟨s, hs, by simpa using hc⟩)
      · intro s hs
        exact dedupByFirm_not_seen ys _ x hx2 s (List.mem_cons_of_mem _ hs)

/-- Kept items have pairwise non-equal firms. -/
theorem dedupByFirm_pairwise_firm : ∀ (l : List JVal) (seen : List (Option JVal)),
    (dedupByFirm l seen).Pairwise
      (fun a b => jeqOpt (jget (some a) "firm") (jget (some b) "firm") = false)
  | [], _ => List.Pairwise.nil
  | x :: xs, seen => by
    unfold dedupByFirm
    split_ifs with h
    · exact dedupByFirm_pairwise_firm xs seen
    · refine List.Pairwise.cons ?_ (dedupByFirm_pairwise_firm xs _)
      intro y hy
      exact dedupByFirm_not_seen xs _ y hy _ (by simp)

/-- Every input item whose firm is an unseen string is represented in
the dedup output by an item of the same firm with an epoch key at
least as large, provided the input is sorted descending. -/
theorem dedupByFirm_max : ∀ (l : List JVal) (seen : List (Option JVal)),
    l.Pairwise recOrder →
    (∀ x ∈ l, ∃ f, jget (some x) "firm" = some (.jstr f)) →
    ∀ y ∈ l, (∀ s ∈ seen, jeqOpt s (jget (some y) "firm") = false) →
    ∃ x ∈ dedupByFirm l seen,
      jeqOpt (jget (some x) "firm") (jget (some y) "firm") = true ∧
      epochKey y ≤ epochKey x
  | [], _, _, _, y, hy, _ => absurd hy (List.not_mem_nil y)
  | x :: xs, seen, hsort, hfirm, y, hy, hseen => by
    have hsort' := List.pairwise_cons.mp hsort
    rcases List.mem_cons.mp hy with hy1 | hy2
    · subst hy1
      unfold dedupByFirm
      split_ifs with h
      · exfalso
        obtain ⟨s, hs, hsk⟩ := List.any_eq_true.mp h
        exact absurd (by simpa using hsk) (by simp [hseen s hs])
      · refine ⟨y, by simp, ?_, le_refl _⟩
        obtain ⟨f, hf⟩ := hfirm y (by simp)
        simp [hf, jeqOpt, jeq]
    · unfold dedupByFirm
      split_ifs with h
      · exact dedupByFirm_max xs seen hsort'.2
          (fun z hz => hfirm z (List.mem_cons_of_mem _ hz)) y hy2 hseen
      · by_cases hk : jeqOpt (jget (some x) "firm") (jget (some y) "firm") = true
        · exact ⟨x, by simp, hk, hsort'.1 y hy2⟩
        · obtain ⟨z, hz, hzf, hze⟩ :=
            dedupByFirm_max xs (jget (some x) "firm" :: seen) hsort'.2
              (fun z hz => hfirm z (List.mem_cons_of_mem _ hz)) y hy2
              (fun s hs => by
                rcases List.mem_cons.mp hs with hs1 | hs2
                · subst hs1
                  simpa using hk
                · exact hseen s hs2)
          exact ⟨z, List.mem_cons_of_mem _ hz, hzf, hze⟩

/-- Upgrade/downgrade history entry: firm `A` at epoch 300. -/
def recItemA300 : JVal :=
  .jobj [("firm", .jstr "A"), ("toGrade", .jstr "Buy"), ("epochGradeDate", .jnum 300)]

/-- Upgrade/downgrade history entry: firm `A` at epoch 200. -/
def recItemA200 : JVal :=
  .jobj [("firm", .jstr "A"), ("toGrade", .jstr "Hold"), ("epochGradeDate", .jnum 200)]

/-- Upgrade/downgrade history entry: firm `B` at epoch 100. -/
def recItemB100 : JVal :=
  .jobj [("firm", .jstr "B"), ("toGrade", .jstr "Sell"), ("epochGradeDate", .jnum 100)]

/-- A quoteSummary response carrying the three-entry history. -/
def evRecHistory : FetchEvent :=
  .resp ⟨true, 200, "",
    .ok (.jobj [("quoteSummary", .jobj [("result", .jarr [.jobj
      [("upgradeDowngradeHistory", .jobj
        [("history", .jarr [recItemA200, recItemB100, recItemA300])])]])])])⟩

/-- Claim C8 (recommendation filter–sort–dedup): every output entry of
the upgrades/downgrades pipeline comes from the history and passes the
epoch filter; the output is sorted descending by epoch; firms are
pairwise distinct; when the cutoff admits every entry, each firm of the
history is represented by an entry whose epoch is maximal for that
firm; and on the spec's example (`A@300`, `A@200`, `B@100`, cutoff
admitting all) the pipeline returns `[A@300, B@100]`, which is what
`getRecommendations` serialises. -/
theorem claim_C8_recommendation_pipeline :
    (∀ (cutoff : Int) (history : List JVal) (x : JVal),
       x ∈ upgradePipeline cutoff history → x ∈ history ∧ keepRec cutoff x = true) ∧
    (∀ (cutoff : Int) (history : List JVal),
       (upgradePipeline cutoff history).Pairwise (fun a b => epochKey b ≤ epochKey a)) ∧
    (∀ (cutoff : Int) (history : List JVal),
       (upgradePipeline cutoff history).Pairwise
         (fun a b => jeqOpt (jget (some a) "firm") (jget (some b) "firm") = false)) ∧
    (∀ (cutoff : Int) (history : List JVal),
       (∀ x ∈ history, ∃ f, jget (some x) "firm" = some (.jstr f)) →
       ∀ y ∈ history, keepRec cutoff y = true →
       ∃ x ∈ upgradePipeline cutoff history,
         jeqOpt (jget (some x) "firm") (jget (some y) "firm") = true ∧
         epochKey y ≤ epochKey x) ∧
    upgradePipeline (cutoffOf 0 12) [recItemA200, recItemB100, recItemA300] =
      [recItemA300, recItemB100] ∧
    getRecommendations "AAPL" .upgrades_downgrades 12 0 evRecHistory =
      serializeJ (.jarr ((upgradePipeline (cutoffOf 0 12)
        [recItemA200, recItemB100, recItemA300]).map addGradeDate)) := by
  refine ⟨?_, ?_, ?_, ?_, by rfl, by rfl⟩
  · intro cutoff history x hx
    have hx1 : x ∈ List.insertionSort recOrder (history.filter (keepRec cutoff)) :=
      (dedupByFirm_sublist _ _).subset hx
    have hx2 : x ∈ history.filter (keepRec cutoff) :=
      (List.perm_insertionSort recOrder _).subset hx1
    exact ⟨List.mem_of_mem_filter hx2, List.of_mem_filter hx2⟩
  · intro cutoff history
    exact List.Pairwise.sublist (dedupByFirm_sublist _ _)
      (List.sorted_insertionSort recOrder _)
  · intro cutoff history
    exact dedupByFirm_pairwise_firm _ _
  · intro cutoff history hfirm y hy hkeep
    have hys : y ∈ List.insertionSort recOrder (history.filter (keepRec cutoff)) :=
      (List.perm_insertionSort recOrder _).mem_iff.mpr
        (List.mem_filter.mpr ⟨hy, hkeep⟩)
    exact dedupByFirm_max _ [] (List.sorted_insertionSort recOrder _)
      (fun z hz => hfirm z (List.mem_of_mem_filter
        ((List.perm_insertionSort recOrder _).subset hz)))
      y hys (fun s hs => absurd hs (List.not_mem_nil s))

/-- Witness for C8: firm `A`'s earlier entry is represented by the
kept `A@300` entry, whose epoch dominates; evaluated concretely. -/
theorem claim_C8_recommendation_pipeline_witness :
    ∃ x ∈ upgradePipeline (cutoffOf 0 12) [recItemA200, recItemB100, recItemA300],
      jeqOpt (jget (some x) "firm") (jget (some recItemA200) "firm") = true ∧
      epochKey recItemA200 ≤ epochKey x :=
  claim_C8_recommendation_pipeline.2.2.2.1 (cutoffOf 0 12)
    [recItemA200, recItemB100, recItemA300]
    (by
      intro x hx
      fin_cases hx
      · exact ⟨"A", rfl⟩
      · exact ⟨"B", rfl⟩
      · exact ⟨"A", rfl⟩)
    recItemA200 (by simp) (by decide)

/-! ## Lemmas for the uniform error channel -/

/-- A thrown fetch (or thrown credential acquisition) surfaces as
`Error: <rendering>`. -/
theorem runTool_thrown (d : String) (k : JVal → Except String String) :
    runTool (toolPipeline (.thrown d) k) = "Error: " ++ d := rfl

/-- A non-success HTTP status surfaces as the rendered `HTTP <status>`
exception. -/
theorem runTool_nonOk (r : NetResponse) (k : JVal → Except String String)
    (h : r.ok = false) :
    runTool (toolPipeline (.resp r) k) =
      "Error: " ++ ("Error: HTTP " ++ toString r.status ++ ": " ++ r.bodyText.take 200) := by
  have hc : fetchYahooCheck (.resp r) =
      .error ("Error: HTTP " ++ toString r.status ++ ": " ++ r.bodyText.take 200) := by
    simp [fetchYahooCheck, h]
  unfold toolPipeline
  rw [hc]
  rfl

/-- A body-parse failure surfaces as its rendering. -/
theorem runTool_badJson (r : NetResponse) (k : JVal → Except String String) (d : String)
    (h1 : r.ok = true) (h2 : r.bodyJson = .error d) :
    runTool (toolPipeline (.resp r) k) = "Error: " ++ d := by
  have hc : fetchYahooCheck (.resp r) = .ok r := by
    simp [fetchYahooCheck, h1]
  unfold toolPipeline
  rw [hc]
  show runTool (Except.bind r.bodyJson fun data => k data) = "Error: " ++ d
  rw [h2]
  rfl

/-- Successful fetch and parse hand the parsed document to the body. -/
theorem runTool_okJson (r : NetResponse) (k : JVal → Except String String) (data : JVal)
    (h1 : r.ok = true) (h2 : r.bodyJson = .ok data) :
    runTool (toolPipeline (.resp r) k) = runTool (k data) := by
  have hc : fetchYahooCheck (.resp r) = .ok r := by
    simp [fetchYahooCheck, h1]
  unfold toolPipeline
  rw [hc]
  show runTool (Except.bind r.bodyJson fun data => k data) = runTool (k data)
  rw [h2]
  rfl

/-- `historicalBody` returns the embedded chart error when present. -/
theorem historicalBody_err (t : String) (data : JVal)
    (h : truthyOpt (jget (jget (some data) "chart") "error") = true) :
    historicalBody t data =
      .ok ("Error: " ++
        jsDisplay (jget (jget (jget (some data) "chart") "error") "description")) := by
  unfold historicalBody
  simp [h]
  rfl

/-- `stockInfoBody` returns the embedded quoteSummary error when
present. -/
theorem stockInfoBody_err (t : String) (data : JVal)
    (h : truthyOpt (jget (jget (some data) "quoteSummary") "error") = true) :
    stockInfoBody t data =
      .ok ("Error: " ++
        jsDisplay (jget (jget (jget (some data) "quoteSummary") "error") "description")) := by
  unfold stockInfoBody
  simp [h]
  rfl

/-- `stockActionsBody` returns the embedded chart error when present. -/
theorem stockActionsBody_err (t : String) (data : JVal)
    (h : truthyOpt (jget (jget (some data) "chart") "error") = true) :
    stockActionsBody t data =
      .ok ("Error: " ++
        jsDisplay (jget (jget (jget (some data) "chart") "error") "description")) := by
  unfold stockActionsBody
  simp [h]
  rfl

/-- `financialBody` returns the embedded quoteSummary error when
present. -/
theorem financialBody_err (t : String) (ft : FinancialType) (data : JVal)
    (h : truthyOpt (jget (jget (some data) "quoteSummary") "error") = true) :
    financialBody t ft data =
      .ok ("Error: " ++
        jsDisplay (jget (jget (jget (some data) "quoteSummary") "error") "description")) := by
  unfold financialBody
  simp [h]
  rfl

/-- `holderBody` returns the embedded quoteSummary error when present. -/
theorem holderBody_err (t : String) (ht : HolderType) (data : JVal)
    (h : truthyOpt (jget (jget (some data) "quoteSummary") "error") = true) :
    holderBody t ht data =
      .ok ("Error: " ++
        jsDisplay (jget (jget (jget (some data) "quoteSummary") "error") "description")) := by
  unfold holderBody
  simp [h]
  rfl

/-- `expirationsBody` returns the embedded optionChain error when
present. -/
theorem expirationsBody_err (t : String) (data : JVal)
    (h : truthyOpt (jget (jget (some data) "optionChain") "error") = true) :
    expirationsBody t data =
      .ok ("Error: " ++
        jsDisplay (jget (jget (jget (some data) "optionChain") "error") "description")) := by
  unfold expirationsBody
  simp [h]
  rfl

/-- `optionChainBody` returns the embedded optionChain error when
present. -/
theorem optionChainBody_err (t e : String) (side : OptionSide) (data : JVal)
    (h : truthyOpt (jget (jget (some data) "optionChain") "error") = true) :
    optionChainBody t e side data =
      .ok ("Error: " ++
        jsDisplay (jget (jget (jget (some data) "optionChain") "error") "description")) := by
  unfold optionChainBody
  simp [h]
  rfl

/-- `recommendationsBody` returns the embedded quoteSummary error when
present. -/
theorem recommendationsBody_err (t : String) (rt : RecommendationType) (mb : Rat)
    (nowMs : Int) (data : JVal)
    (h : truthyOpt (jget (jget (some data) "quoteSummary") "error") = true) :
    recommendationsBody t rt mb nowMs data =
      .ok ("Error: " ++
        jsDisplay (jget (jget (jget (some data) "quoteSummary") "error") "description")) := by
  unfold recommendationsBody
  simp [h]
  rfl

/-- `newsBody` performs no embedded-error check: a response without a
(truthy) `news` value yields the no-news text even if the document
carries an error object. -/
theorem newsBody_no_news (t : String) (data : JVal)
    (h : jget (some data) "news" = none) :
    newsBody t data = .ok ("No news found for " ++ t ++ ".") := by
  unfold newsBody
  rw [h]
  rfl

/-- A search response that carries an embedded error object and no
`news` field. -/
def evSearchError : FetchEvent :=
  .resp ⟨true, 200, "", .ok (.jobj [("error", .jobj [("description", .jstr "bad request")])])⟩

/-- Counterexample to claim C6 as stated: `getYahooFinanceNews` is one
of the nine data-shaping functions, and on a response embedding an
upstream error object it returns the no-news text, not an
`Error: <description>` payload. -/
theorem claim_C6_counterexample :
    getYahooFinanceNews "AAPL" evSearchError = "No news found for AAPL." ∧
    isPrefixOfList "Error: ".toList "No news found for AAPL.".toList = false := by
  constructor
  · rfl
  · decide

/-- Claim C6 as amended (uniform error channel): every one of the nine
data-shaping tool functions is total (no exception crosses the tool
boundary) and converts a thrown fetch, a non-success HTTP status, and a
body-parse failure into a single `Error: <description>` text payload;
an embedded upstream error object is likewise converted by the eight
functions that inspect one, while `getYahooFinanceNews`, which has no
embedded-error check, answers the no-news text instead. -/
theorem claim_C6_amended :
    ((∀ (t p i d : String), getHistoricalStockPrices t p i (.thrown d) = "Error: " ++ d) ∧
     (∀ (t p i : String) (r : NetResponse), r.ok = false →
        getHistoricalStockPrices t p i (.resp r) =
          "Error: " ++ ("Error: HTTP " ++ toString r.status ++ ": " ++ r.bodyText.take 200)) ∧
     (∀ (t p i : String) (r : NetResponse) (d : String), r.ok = true → r.bodyJson = .error d →
        getHistoricalStockPrices t p i (.resp r) = "Error: " ++ d) ∧
     (∀ (t p i : String) (r : NetResponse) (data : JVal), r.ok = true → r.bodyJson = .ok data →
        truthyOpt (jget (jget (some data) "chart") "error") = true →
        getHistoricalStockPrices t p i (.resp r) =
          "Error: " ++ jsDisplay (jget (jget (jget (some data) "chart") "error") "description"))) ∧
    ((∀ (t d : String), getStockInfo t (.thrown d) = "Error: " ++ d) ∧
     (∀ (t : String) (r : NetResponse), r.ok = false →
        getStockInfo t (.resp r) =
          "Error: " ++ ("Error: HTTP " ++ toString r.status ++ ": " ++ r.bodyText.take 200)) ∧
     (∀ (t : String) (r : NetResponse) (d : String), r.ok = true → r.bodyJson = .error d →
        getStockInfo t (.resp r) = "Error: " ++ d) ∧
     (∀ (t : String) (r : NetResponse) (data : JVal), r.ok = true → r.bodyJson = .ok data →
        truthyOpt (jget (jget (some data) "quoteSummary") "error") = true →
        getStockInfo t (.resp r) =
          "Error: " ++ jsDisplay (jget (jget (jget (some data) "quoteSummary") "error") "description"))) ∧
    ((∀ (t d : String), getYahooFinanceNews t (.thrown d) = "Error: " ++ d) ∧
     (∀ (t : String) (r : NetResponse), r.ok = false →
        getYahooFinanceNews t (.resp r) =
          "Error: " ++ ("Error: HTTP " ++ toString r.status ++ ": " ++ r.bodyText.take 200)) ∧
     (∀ (t : String) (r : NetResponse) (d : String), r.ok = true → r.bodyJson = .error d →
        getYahooFinanceNews t (.resp r) = "Error: " ++ d) ∧
     (∀ (t : String) (r : NetResponse) (data : JVal), r.ok = true → r.bodyJson = .ok data →
        jget (some data) "news" = none →
        getYahooFinanceNews t (.resp r) = "No news found for " ++ t ++ ".")) ∧
    ((∀ (t d : String), getStockActions t (.thrown d) = "Error: " ++ d) ∧
     (∀ (t : String) (r : NetResponse), r.ok = false →
        getStockActions t (.resp r) =
          "Error: " ++ ("Error: HTTP " ++ toString r.status ++ ": " ++ r.bodyText.take 200)) ∧
     (∀ (t : String) (r : NetResponse) (d : String), r.ok = true → r.bodyJson = .error d →
        getStockActions t (.resp r) = "Error: " ++ d) ∧
     (∀ (t : String) (r : NetResponse) (data : JVal), r.ok = true → r.bodyJson = .ok data →
        truthyOpt (jget (jget (some data) "chart") "error") = true →
        getStockActions t (.resp r) =
          "Error: " ++ jsDisplay (jget (jget (jget (some data) "chart") "error") "description"))) ∧
    ((∀ (t : String) (ft : FinancialType) (d : String),
        getFinancialStatement t ft (.thrown d) = "Error: " ++ d) ∧
     (∀ (t : String) (ft : FinancialType) (r : NetResponse), r.ok = false →
        getFinancialStatement t ft (.resp r) =
          "Error: " ++ ("Error: HTTP " ++ toString r.status ++ ": " ++ r.bodyText.take 200)) ∧
     (∀ (t : String) (ft : FinancialType) (r : NetResponse) (d : String),
        r.ok = true → r.bodyJson = .error d →
        getFinancialStatement t ft (.resp r) = "Error: " ++ d) ∧
     (∀ (t : String) (ft : FinancialType) (r : NetResponse) (data : JVal),
        r.ok = true → r.bodyJson = .ok data →
        truthyOpt (jget (jget (some data) "quoteSummary") "error") = true →
        getFinancialStatement t ft (.resp r) =
          "Error: " ++ jsDisplay (jget (jget (jget (some data) "quoteSummary") "error") "description"))) ∧
    ((∀ (t : String) (ht : HolderType) (d : String),
        getHolderInfo t ht (.thrown d) = "Error: " ++ d) ∧
     (∀ (t : String) (ht : HolderType) (r : NetResponse), r.ok = false →
        getHolderInfo t ht (.resp r) =
          "Error: " ++ ("Error: HTTP " ++ toString r.status ++ ": " ++ r.bodyText.take 200)) ∧
     (∀ (t : String) (ht : HolderType) (r : NetResponse) (d : String),
        r.ok = true → r.bodyJson = .error d →
        getHolderInfo t ht (.resp r) = "Error: " ++ d) ∧
     (∀ (t : String) (ht : HolderType) (r : NetResponse) (data : JVal),
        r.ok = true → r.bodyJson = .ok data →
        truthyOpt (jget (jget (some data) "quoteSummary") "error") = true →
        getHolderInfo t ht (.resp r) =
          "Error: " ++ jsDisplay (jget (jget (jget (some data) "quoteSummary") "error") "description"))) ∧
    ((∀ (t d : String), getOptionExpirationDates t (.thrown d) = "Error: " ++ d) ∧
     (∀ (t : String) (r : NetResponse), r.ok = false →
        getOptionExpirationDates t (.resp r) =
          "Error: " ++ ("Error: HTTP " ++ toString r.status ++ ": " ++ r.bodyText.take 200)) ∧
     (∀ (t : String) (r : NetResponse) (d : String), r.ok = true → r.bodyJson = .error d →
        getOptionExpirationDates t (.resp r) = "Error: " ++ d) ∧
     (∀ (t : String) (r : NetResponse) (data : JVal), r.ok = true → r.bodyJson = .ok data →
        truthyOpt (jget (jget (some data) "optionChain") "error") = true →
        getOptionExpirationDates t (.resp r) =
          "Error: " ++ jsDisplay (jget (jget (jget (some data) "optionChain") "error") "description"))) ∧
    ((∀ (t e : String) (side : OptionSide) (d : String),
        getOptionChain t e side (.thrown d) = "Error: " ++ d) ∧
     (∀ (t e : String) (side : OptionSide) (r : NetResponse), r.ok = false →
        getOptionChain t e side (.resp r) =
          "Error: " ++ ("Error: HTTP " ++ toString r.status ++ ": " ++ r.bodyText.take 200)) ∧
     (∀ (t e : String) (side : OptionSide) (r : NetResponse) (d : String),
        r.ok = true → r.bodyJson = .error d →
        getOptionChain t e side (.resp r) = "Error: " ++ d) ∧
     (∀ (t e : String) (side : OptionSide) (r : NetResponse) (data : JVal),
        r.ok = true → r.bodyJson = .ok data →
        truthyOpt (jget (jget (some data) "optionChain") "error") = true →
        getOptionChain t e side (.resp r) =
          "Error: " ++ jsDisplay (jget (jget (jget (some data) "optionChain") "error") "description"))) ∧
    ((∀ (t : String) (rt : RecommendationType) (mb : Rat) (nowMs : Int) (d : String),
        getRecommendations t rt mb nowMs (.thrown d) = "Error: " ++ d) ∧
     (∀ (t : String) (rt : RecommendationType) (mb : Rat) (nowMs : Int) (r : NetResponse),
        r.ok = false →
        getRecommendations t rt mb nowMs (.resp r) =
          "Error: " ++ ("Error: HTTP " ++ toString r.status ++ ": " ++ r.bodyText.take 200)) ∧
     (∀ (t : String) (rt : RecommendationType) (mb : Rat) (nowMs : Int) (r : NetResponse)
        (d : String), r.ok = true → r.bodyJson = .error d →
        getRecommendations t rt mb nowMs (.resp r) = "Error: " ++ d) ∧
     (∀ (t : String) (rt : RecommendationType) (mb : Rat) (nowMs : Int) (r : NetResponse)
        (data : JVal), r.ok = true → r.bodyJson = .ok data →
        truthyOpt (jget (jget (some data) "quoteSummary") "error") = true →
        getRecommendations t rt mb nowMs (.resp r) =
          "Error: " ++ jsDisplay (jget (jget (jget (some data) "quoteSummary") "error") "description"))) := by
  refine ⟨⟨?_, ?_, ?_, ?_⟩, ⟨?_, ?_, ?_, ?_⟩, ⟨?_, ?_, ?_, ?_⟩, ⟨?_, ?_, ?_, ?_⟩,
    ⟨?_, ?_, ?_, ?_⟩, ⟨?_, ?_, ?_, ?_⟩, ⟨?_, ?_, ?_, ?_⟩, ⟨?_, ?_, ?_, ?_⟩, ?_, ?_, ?_, ?_⟩
  · intro t p i d
    exact runTool_thrown d _
  · intro t p i r h
    exact runTool_nonOk r _ h
  · intro t p i r d h1 h2
    exact runTool_badJson r _ d h1 h2
  · intro t p i r data h1 h2 h3
    have h := runTool_okJson r (historicalBody t) data h1 h2
    rw [historicalBody_err t data h3] at h
    exact h
  · intro t d
    exact runTool_thrown d _
  · intro t r h
    exact runTool_nonOk r _ h
  · intro t r d h1 h2
    exact runTool_badJson r _ d h1 h2
  · intro t r data h1 h2 h3
    have h := runTool_okJson r (stockInfoBody t) data h1 h2
    rw [stockInfoBody_err t data h3] at h
    exact h
  · intro t d
    exact runTool_thrown d _
  · intro t r h
    exact runTool_nonOk r _ h
  · intro t r d h1 h2
    exact runTool_badJson r _ d h1 h2
  · intro t r data h1 h2 h3
    have h := runTool_okJson r (newsBody t) data h1 h2
    rw [newsBody_no_news t data h3] at h
    exact h
  · intro t d
    exact runTool_thrown d _
  · intro t r h
    exact runTool_nonOk r _ h
  · intro t r d h1 h2
    exact runTool_badJson r _ d h1 h2
  · intro t r data h1 h2 h3
    have h := runTool_okJson r (stockActionsBody t) data h1 h2
    rw [stockActionsBody_err t data h3] at h
    exact h
  · intro t ft d
    exact runTool_thrown d _
  · intro t ft r h
    exact runTool_nonOk r _ h
  · intro t ft r d h1 h2
    exact runTool_badJson r _ d h1 h2
  · intro t ft r data h1 h2 h3
    have h := runTool_okJson r (financialBody t ft) data h1 h2
    rw [financialBody_err t ft data h3] at h
    exact h
  · intro t ht d
    exact runTool_thrown d _
  · intro t ht r h
    exact runTool_nonOk r _ h
  · intro t ht r d h1 h2
    exact runTool_badJson r _ d h1 h2
  · intro t ht r data h1 h2 h3
    have h := runTool_okJson r (holderBody t ht) data h1 h2
    rw [holderBody_err t ht data h3] at h
    exact h
  · intro t d
    exact runTool_thrown d _
  · intro t r h
    exact runTool_nonOk r _ h
  · intro t r d h1 h2
    exact runTool_badJson r _ d h1 h2
  · intro t r data h1 h2 h3
    have h := runTool_okJson r (expirationsBody t) data h1 h2
    rw [expirationsBody_err t data h3] at h
    exact h
  · intro t e side d
    exact runTool_thrown d _
  · intro t e side r h
    exact runTool_nonOk r _ h
  · intro t e side r d h1 h2
    exact runTool_badJson r _ d h1 h2
  · intro t e side r data h1 h2 h3
    have h := runTool_okJson r (optionChainBody t e side) data h1 h2
    rw [optionChainBody_err t e side data h3] at h
    exact h
  · intro t rt mb nowMs d
    exact runTool_thrown d _
  · intro t rt mb nowMs r h
    exact runTool_nonOk r _ h
  · intro t rt mb nowMs r d h1 h2
    exact runTool_badJson r _ d h1 h2
  · intro t rt mb nowMs r data h1 h2 h3
    have h := runTool_okJson r (recommendationsBody t rt mb nowMs) data h1 h2
    rw [recommendationsBody_err t rt mb nowMs data h3] at h
    exact h

set_option maxRecDepth 4000 in
/-- Witness for the amended C6: one thrown fetch, one HTTP failure,
one parse failure, and one embedded chart error, each converted to an
`Error: ` payload at a concrete input. -/
theorem claim_C6_amended_witness :
    getHistoricalStockPrices "AAPL" "1mo" "1d" (.thrown "Error: network down") =
      "Error: Error: network down" ∧
    getStockInfo "AAPL" (.resp ⟨false, 404, "nf", .error "x"⟩) =
      "Error: Error: HTTP 404: nf" ∧
    getRecommendations "AAPL" .recommendations 12 0
      (.resp ⟨true, 200, "", .error "SyntaxError: Unexpected end of JSON input"⟩) =
      "Error: SyntaxError: Unexpected end of JSON input" ∧
    getStockActions "AAPL"
      (.resp ⟨true, 200, "",
        .ok (.jobj [("chart", .jobj [("error", .jobj [("description", .jstr "No data")])])])⟩) =
      "Error: No data" := by
  refine ⟨?_, ?_, ?_, ?_⟩
  · exact (claim_C6_amended.1.1 "AAPL" "1mo" "1d" "Error: network down").trans (by decide)
  · exact (claim_C6_amended.2.1.2.1 "AAPL" ⟨false, 404, "nf", .error "x"⟩ rfl).trans (by decide)
  · exact (claim_C6_amended.2.2.2.2.2.2.2.2.2.2.1 "AAPL" .recommendations 12 0
      ⟨true, 200, "", .error "SyntaxError: Unexpected end of JSON input"⟩
      "SyntaxError: Unexpected end of JSON input" rfl rfl).trans (by decide)
  · exact (claim_C6_amended.2.2.2.1.2.2.2 "AAPL"
      ⟨true, 200, "",
        .ok (.jobj [("chart", .jobj [("error", .jobj [("description", .jstr "No data")])])])⟩
      (.jobj [("chart", .jobj [("error", .jobj [("description", .jstr "No data")])])])
      rfl rfl (by decide)).trans (by decide)
